import Mathlib

/-! keyboard-com-proj: the CUE SDK demonstration client (`src/main.cpp`)

`main.cpp` is a straight-line script over the vendor lighting SDK.  The SDK, the
terminal and the clock are outside the program, so they are modelled as an
arbitrary deterministic environment over a state type `σ`: every external
function takes the current environment state and returns its answer together
with the next state.  The program is embedded as a state-passing function that
also records, in order, every external call it makes together with the answer
it received (`World.trace`).

Modelling choices:

* The header `CUESDK.h` is not part of the repository sources; the three
  enumeration constants the program uses (`CAM_ExclusiveLightingControl`,
  `CDT_Keyboard`, `CLK_A`) are therefore fields of the environment, and every
  theorem holds whatever their values.
* C `int` and `enum` values are `Int`.  The only arithmetic of the program is
  the loop increment `i++`, which runs under the guard `i < deviceCount` and so
  cannot overflow.
* A `printf` call is recorded as its format string and the list of its integer
  arguments; the text is not rendered.
* The `for` loop of `main` is the recursive function `main_for`; it is total
  (the distance `deviceCount - i` decreases).

The file first embeds the program, then fixes a vocabulary for traces, and then
proves the properties `C1` to `C10`.
-/

namespace KeyboardComProj

/-! ## Data model -/

/-- The record `struct CorsairLedColor` of the SDK header: an LED identifier and
three `int` channels. -/
structure CorsairLedColor where
  ledId : Int
  r : Int
  g : Int
  b : Int
deriving DecidableEq

/-- The part of `struct CorsairProtocolDetails` the program reads. -/
structure CorsairProtocolDetails where
  serverProtocolVersion : Int
deriving DecidableEq

/-- The part of `struct CorsairDeviceInfo` the program reads
(`deviceInfo->type`). -/
structure CorsairDeviceInfo where
  type : Int
deriving DecidableEq

/-- The external world of `main.cpp`: the constants and entry points of
`CUESDK.h` plus the two libc calls `usleep` and `getchar`.  `σ` is the hidden
state of that world; each call may read and change it, so that an answer may
depend on everything that happened before.  A null `CorsairDeviceInfo*` is
`none`.  `CorsairGetLedsColorsByDeviceIndex` receives the one-element array by
value and returns the array as the SDK left it;
`CorsairSetLedsColorsBufferByDeviceIndex` only reads its array. -/
structure CUESDK (σ : Type) where
  CAM_ExclusiveLightingControl : Int
  CDT_Keyboard : Int
  CLK_A : Int
  CorsairPerformProtocolHandshake : σ → CorsairProtocolDetails × σ
  CorsairRequestControl : Int → σ → Bool × σ
  CorsairSetLayerPriority : Int → σ → Bool × σ
  CorsairGetDeviceCount : σ → Int × σ
  CorsairGetDeviceInfo : Int → σ → Option CorsairDeviceInfo × σ
  CorsairGetLedsColorsByDeviceIndex :
    Int → Int → CorsairLedColor → σ → (Bool × CorsairLedColor) × σ
  CorsairSetLedsColorsBufferByDeviceIndex : Int → Int → CorsairLedColor → σ → Bool × σ
  CorsairSetLedsColorsFlushBuffer : σ → Bool × σ
  CorsairReleaseControl : Int → σ → Bool × σ
  CorsairGetLastError : σ → Int × σ
  usleep : Int → σ → σ
  getchar : σ → Int × σ

/-- One observable action of the program: an external call with its arguments
and the answer received, or a `printf` with its format string and its integer
arguments. -/
inductive Event where
  | CorsairPerformProtocolHandshake (result : CorsairProtocolDetails)
  | CorsairRequestControl (accessMode : Int) (result : Bool)
  | CorsairSetLayerPriority (priority : Int) (result : Bool)
  | CorsairGetDeviceCount (result : Int)
  | CorsairGetDeviceInfo (deviceIndex : Int) (result : Option CorsairDeviceInfo)
  | CorsairGetLedsColorsByDeviceIndex (deviceIndex size : Int) (ledsColors : CorsairLedColor)
      (result : Bool) (out : CorsairLedColor)
  | CorsairSetLedsColorsBufferByDeviceIndex (deviceIndex size : Int)
      (ledsColors : CorsairLedColor) (result : Bool)
  | CorsairSetLedsColorsFlushBuffer (result : Bool)
  | CorsairReleaseControl (accessMode : Int) (result : Bool)
  | CorsairGetLastError (result : Int)
  | printf (format : String) (args : List Int)
  | usleep (usec : Int)
  | getchar (result : Int)
deriving DecidableEq

/-- The running program's view of the world: the environment state and the
calls made so far, oldest first. -/
structure World (σ : Type) where
  state : σ
  trace : List Event

variable {σ : Type}

/-! ## External calls, each recording itself in the trace -/

/-- Record the event `e` and move the environment to state `s`. -/
def World.emit (w : World σ) (s : σ) (e : Event) : World σ :=
  { state := s, trace := w.trace ++ [e] }

def CorsairPerformProtocolHandshake (sdk : CUESDK σ) (w : World σ) :
    CorsairProtocolDetails × World σ :=
  let a := sdk.CorsairPerformProtocolHandshake w.state
  (a.1, w.emit a.2 (Event.CorsairPerformProtocolHandshake a.1))

def CorsairRequestControl (sdk : CUESDK σ) (accessMode : Int) (w : World σ) : Bool × World σ :=
  let a := sdk.CorsairRequestControl accessMode w.state
  (a.1, w.emit a.2 (Event.CorsairRequestControl accessMode a.1))

def CorsairSetLayerPriority (sdk : CUESDK σ) (priority : Int) (w : World σ) : Bool × World σ :=
  let a := sdk.CorsairSetLayerPriority priority w.state
  (a.1, w.emit a.2 (Event.CorsairSetLayerPriority priority a.1))

def CorsairGetDeviceCount (sdk : CUESDK σ) (w : World σ) : Int × World σ :=
  let a := sdk.CorsairGetDeviceCount w.state
  (a.1, w.emit a.2 (Event.CorsairGetDeviceCount a.1))

def CorsairGetDeviceInfo (sdk : CUESDK σ) (deviceIndex : Int) (w : World σ) :
    Option CorsairDeviceInfo × World σ :=
  let a := sdk.CorsairGetDeviceInfo deviceIndex w.state
  (a.1, w.emit a.2 (Event.CorsairGetDeviceInfo deviceIndex a.1))

def CorsairGetLedsColorsByDeviceIndex (sdk : CUESDK σ) (deviceIndex size : Int)
    (ledsColors : CorsairLedColor) (w : World σ) : (Bool × CorsairLedColor) × World σ :=
  let a := sdk.CorsairGetLedsColorsByDeviceIndex deviceIndex size ledsColors w.state
  (a.1, w.emit a.2
    (Event.CorsairGetLedsColorsByDeviceIndex deviceIndex size ledsColors a.1.1 a.1.2))

def CorsairSetLedsColorsBufferByDeviceIndex (sdk : CUESDK σ) (deviceIndex size : Int)
    (ledsColors : CorsairLedColor) (w : World σ) : Bool × World σ :=
  let a := sdk.CorsairSetLedsColorsBufferByDeviceIndex deviceIndex size ledsColors w.state
  (a.1, w.emit a.2
    (Event.CorsairSetLedsColorsBufferByDeviceIndex deviceIndex size ledsColors a.1))

def CorsairSetLedsColorsFlushBuffer (sdk : CUESDK σ) (w : World σ) : Bool × World σ :=
  let a := sdk.CorsairSetLedsColorsFlushBuffer w.state
  (a.1, w.emit a.2 (Event.CorsairSetLedsColorsFlushBuffer a.1))

def CorsairReleaseControl (sdk : CUESDK σ) (accessMode : Int) (w : World σ) : Bool × World σ :=
  let a := sdk.CorsairReleaseControl accessMode w.state
  (a.1, w.emit a.2 (Event.CorsairReleaseControl accessMode a.1))

def CorsairGetLastError (sdk : CUESDK σ) (w : World σ) : Int × World σ :=
  let a := sdk.CorsairGetLastError w.state
  (a.1, w.emit a.2 (Event.CorsairGetLastError a.1))

def usleep (sdk : CUESDK σ) (usec : Int) (w : World σ) : World σ :=
  w.emit (sdk.usleep usec w.state) (Event.usleep usec)

def getchar (sdk : CUESDK σ) (w : World σ) : Int × World σ :=
  let a := sdk.getchar w.state
  (a.1, w.emit a.2 (Event.getchar a.1))

def printf (format : String) (args : List Int) (w : World σ) : World σ :=
  w.emit w.state (Event.printf format args)

/-! ## The program -/

/-- The function `read_and_print_key_color` (main.cpp lines 7-20). -/
def read_and_print_key_color (sdk : CUESDK σ) (deviceIndex : Int) (ledId : Int)
    (w : World σ) : World σ :=
  let color : CorsairLedColor := { ledId := ledId, r := 0, g := 0, b := 0 }
  let a := CorsairGetLedsColorsByDeviceIndex sdk deviceIndex 1 color w
  let color := a.1.2
  if a.1.1 then
    printf "dKey %d color is: R=%d, G=%d, B=%d\n" [ledId, color.r, color.g, color.b] a.2
  else
    let e := CorsairGetLastError sdk a.2
    printf "Error getting key color: %d\n" [e.1] e.2

/-- The loop test `deviceInfo && deviceInfo->type == CDT_Keyboard`
(main.cpp line 47). -/
def isKeyboard (sdk : CUESDK σ) : Option CorsairDeviceInfo → Bool
  | some deviceInfo => decide (deviceInfo.type = sdk.CDT_Keyboard)
  | none => false

/-- The `for` loop of `main` (main.cpp lines 45-51), entered with loop variable
`i`: the result is the final value of `keyboardIndex`, which was `-1` before the
loop. -/
def main_for (sdk : CUESDK σ) (deviceCount : Int) (i : Int) (w : World σ) : Int × World σ :=
  if h : i < deviceCount then
    let a := CorsairGetDeviceInfo sdk i w
    if isKeyboard sdk a.1 then
      (i, a.2)
    else
      main_for sdk deviceCount (i + 1) a.2
  else
    (-1, w)
termination_by (deviceCount - i).toNat
decreasing_by omega

/-- The function `main` (main.cpp lines 22-97): the exit status and the final world. -/
def main (sdk : CUESDK σ) (w : World σ) : Int × World σ :=
  -- 1. Perform protocol handshake
  let hs := CorsairPerformProtocolHandshake sdk w
  if hs.1.serverProtocolVersion = 0 then
    (1, printf "Error: CUE is not running or was not found.\n" [] hs.2)
  else
  -- 2. Request exclusive lighting control
  let rc := CorsairRequestControl sdk sdk.CAM_ExclusiveLightingControl hs.2
  if !rc.1 then
    (1, printf "Error requesting exclusive control.\n" [] rc.2)
  else
  -- 3. Set a high layer priority
  let lp := CorsairSetLayerPriority sdk 128 rc.2
  if !lp.1 then
    (1, printf "Error setting layer priority.\n" [] lp.2)
  else
  -- 4. Get the keyboard device
  let dc := CorsairGetDeviceCount sdk lp.2
  let kb := main_for sdk dc.1 0 dc.2
  let keyboardIndex := kb.1
  if keyboardIndex = -1 then
    (1, printf "Could not find a Corsair keyboard.\n" [] kb.2)
  else
  -- 5. Read the initial color of the 'A' key
  let w := printf "Reading initial color of 'A' key...\n" [] kb.2
  let w := read_and_print_key_color sdk keyboardIndex sdk.CLK_A w
  -- 6. Set the 'A' key to red
  let w := printf "\nSetting the 'A' key to red...\n" [] w
  let ledColor : CorsairLedColor := { ledId := sdk.CLK_A, r := 255, g := 0, b := 0 }
  let sb := CorsairSetLedsColorsBufferByDeviceIndex sdk keyboardIndex 1 ledColor w
  let fl := if !sb.1 then (true, sb.2) else
    let f := CorsairSetLedsColorsFlushBuffer sdk sb.2
    (!f.1, f.2)
  if fl.1 then
    let e := CorsairGetLastError sdk fl.2
    (1, printf "Error setting color: %d\n" [e.1] e.2)
  else
  let w := printf "Set color command sent.\n" [] fl.2
  let w := usleep sdk 3000000 w
  -- 7. Read the color of the 'A' key again
  let w := printf "\nReading color of 'A' key after setting...\n" [] w
  let w := read_and_print_key_color sdk keyboardIndex sdk.CLK_A w
  let w := printf "\nPress Enter to exit and reset the color.\n" [] w
  let gc := getchar sdk w
  -- 8. Reset the color and release control
  let w := printf "Resetting color and releasing control...\n" [] gc.2
  let ledColor : CorsairLedColor := { ledColor with r := 0, g := 0, b := 0 }
  let sb := CorsairSetLedsColorsBufferByDeviceIndex sdk keyboardIndex 1 ledColor w
  let fl := CorsairSetLedsColorsFlushBuffer sdk sb.2
  let rl := CorsairReleaseControl sdk sdk.CAM_ExclusiveLightingControl fl.2
  (0, rl.2)

/-- A run of the program from environment state `s`: exit status and trace. -/
def run (sdk : CUESDK σ) (s : σ) : Int × List Event :=
  let r := main sdk { state := s, trace := [] }
  (r.1, r.2.trace)


/-! ## Vocabulary for traces -/

/-- The `CorsairGetDeviceInfo` calls for consecutive indices from `i` on, with
the answers `infos`. -/
def queries : Int → List (Option CorsairDeviceInfo) → List Event
  | _, [] => []
  | i, d :: ds => Event.CorsairGetDeviceInfo i d :: queries (i + 1) ds

/-- The events of one `read_and_print_key_color sdk k CLK_A` call whose SDK
read answered `ok` and left `out` in the record (`err` is the answer of
`CorsairGetLastError`, asked only when `ok` is false). -/
def readEvents (sdk : CUESDK σ) (k : Int) (ok : Bool) (out : CorsairLedColor) (err : Int) :
    List Event :=
  Event.CorsairGetLedsColorsByDeviceIndex k 1 ⟨sdk.CLK_A, 0, 0, 0⟩ ok out ::
    (if ok then
      [Event.printf "dKey %d color is: R=%d, G=%d, B=%d\n" [sdk.CLK_A, out.r, out.g, out.b]]
    else
      [Event.CorsairGetLastError err, Event.printf "Error getting key color: %d\n" [err]])

/-- The trace of a run that passed steps 1-3, counted `n` devices and asked for
the device infos `infos`. -/
def upToLoop (sdk : CUESDK σ) (v n : Int) (infos : List (Option CorsairDeviceInfo)) :
    List Event :=
  [Event.CorsairPerformProtocolHandshake ⟨v⟩,
   Event.CorsairRequestControl sdk.CAM_ExclusiveLightingControl true,
   Event.CorsairSetLayerPriority 128 true,
   Event.CorsairGetDeviceCount n] ++ queries 0 infos

/-- The trace of a run that found the keyboard after the non-keyboard answers
`skipped`, up to and including the announcement of step 6. -/
def upToSet (sdk : CUESDK σ) (v n : Int) (skipped : List (Option CorsairDeviceInfo))
    (ok : Bool) (out : CorsairLedColor) (err : Int) : List Event :=
  upToLoop sdk v n (skipped ++ [some ⟨sdk.CDT_Keyboard⟩]) ++
    [Event.printf "Reading initial color of 'A' key...\n" []] ++
    readEvents sdk skipped.length ok out err ++
    [Event.printf "\nSetting the 'A' key to red...\n" []]

/-- The seven ways a run of `main` can go, as exit status and trace. -/
inductive Outcome (sdk : CUESDK σ) : Int → List Event → Prop
  | handshakeFailed :
      Outcome sdk 1
        [Event.CorsairPerformProtocolHandshake ⟨0⟩,
         Event.printf "Error: CUE is not running or was not found.\n" []]
  | requestFailed (v : Int) (hv : v ≠ 0) :
      Outcome sdk 1
        [Event.CorsairPerformProtocolHandshake ⟨v⟩,
         Event.CorsairRequestControl sdk.CAM_ExclusiveLightingControl false,
         Event.printf "Error requesting exclusive control.\n" []]
  | priorityFailed (v : Int) (hv : v ≠ 0) :
      Outcome sdk 1
        [Event.CorsairPerformProtocolHandshake ⟨v⟩,
         Event.CorsairRequestControl sdk.CAM_ExclusiveLightingControl true,
         Event.CorsairSetLayerPriority 128 false,
         Event.printf "Error setting layer priority.\n" []]
  | noKeyboard (v : Int) (hv : v ≠ 0) (n : Int) (infos : List (Option CorsairDeviceInfo))
      (hno : ∀ d ∈ infos, isKeyboard sdk d = false)
      (hlen : (infos.length : Int) = max n 0)
      (hprov : ∀ j d, Event.CorsairGetDeviceInfo j d ∈ queries 0 infos →
        ∃ st, (sdk.CorsairGetDeviceInfo j st).1 = d) :
      Outcome sdk 1
        (upToLoop sdk v n infos ++ [Event.printf "Could not find a Corsair keyboard.\n" []])
  | setFailed (v : Int) (hv : v ≠ 0) (n : Int) (skipped : List (Option CorsairDeviceInfo))
      (hno : ∀ d ∈ skipped, isKeyboard sdk d = false) (hlt : (skipped.length : Int) < n)
      (hprov : ∀ j d, Event.CorsairGetDeviceInfo j d ∈
          queries 0 (skipped ++ [some ⟨sdk.CDT_Keyboard⟩]) →
        ∃ st, (sdk.CorsairGetDeviceInfo j st).1 = d)
      (ok : Bool) (out : CorsairLedColor) (err : Int) (e : Int) :
      Outcome sdk 1
        (upToSet sdk v n skipped ok out err ++
          [Event.CorsairSetLedsColorsBufferByDeviceIndex skipped.length 1
             ⟨sdk.CLK_A, 255, 0, 0⟩ false,
           Event.CorsairGetLastError e,
           Event.printf "Error setting color: %d\n" [e]])
  | flushFailed (v : Int) (hv : v ≠ 0) (n : Int) (skipped : List (Option CorsairDeviceInfo))
      (hno : ∀ d ∈ skipped, isKeyboard sdk d = false) (hlt : (skipped.length : Int) < n)
      (hprov : ∀ j d, Event.CorsairGetDeviceInfo j d ∈
          queries 0 (skipped ++ [some ⟨sdk.CDT_Keyboard⟩]) →
        ∃ st, (sdk.CorsairGetDeviceInfo j st).1 = d)
      (ok : Bool) (out : CorsairLedColor) (err : Int) (e : Int) :
      Outcome sdk 1
        (upToSet sdk v n skipped ok out err ++
          [Event.CorsairSetLedsColorsBufferByDeviceIndex skipped.length 1
             ⟨sdk.CLK_A, 255, 0, 0⟩ true,
           Event.CorsairSetLedsColorsFlushBuffer false,
           Event.CorsairGetLastError e,
           Event.printf "Error setting color: %d\n" [e]])
  | completed (v : Int) (hv : v ≠ 0) (n : Int) (skipped : List (Option CorsairDeviceInfo))
      (hno : ∀ d ∈ skipped, isKeyboard sdk d = false) (hlt : (skipped.length : Int) < n)
      (hprov : ∀ j d, Event.CorsairGetDeviceInfo j d ∈
          queries 0 (skipped ++ [some ⟨sdk.CDT_Keyboard⟩]) →
        ∃ st, (sdk.CorsairGetDeviceInfo j st).1 = d)
      (ok : Bool) (out : CorsairLedColor) (err : Int)
      (ok2 : Bool) (out2 : CorsairLedColor) (err2 : Int) (ch : Int) (sb fl rl : Bool) :
      Outcome sdk 0
        (upToSet sdk v n skipped ok out err ++
          [Event.CorsairSetLedsColorsBufferByDeviceIndex skipped.length 1
             ⟨sdk.CLK_A, 255, 0, 0⟩ true,
           Event.CorsairSetLedsColorsFlushBuffer true,
           Event.printf "Set color command sent.\n" [],
           Event.usleep 3000000,
           Event.printf "\nReading color of 'A' key after setting...\n" []] ++
          readEvents sdk skipped.length ok2 out2 err2 ++
          [Event.printf "\nPress Enter to exit and reset the color.\n" [],
           Event.getchar ch,
           Event.printf "Resetting color and releasing control...\n" [],
           Event.CorsairSetLedsColorsBufferByDeviceIndex skipped.length 1
             ⟨sdk.CLK_A, 0, 0, 0⟩ sb,
           Event.CorsairSetLedsColorsFlushBuffer fl,
           Event.CorsairReleaseControl sdk.CAM_ExclusiveLightingControl rl])


/-! ## Classifying events -/

/-- The call reported failure: a handshake that answered protocol version 0, or
one of the `bool` entry points answering `false`. -/
def Event.failed : Event → Bool
  | .CorsairPerformProtocolHandshake r => decide (r.serverProtocolVersion = 0)
  | .CorsairRequestControl _ r => !r
  | .CorsairSetLayerPriority _ r => !r
  | .CorsairGetLedsColorsByDeviceIndex _ _ _ r _ => !r
  | .CorsairSetLedsColorsBufferByDeviceIndex _ _ _ r => !r
  | .CorsairSetLedsColorsFlushBuffer r => !r
  | .CorsairReleaseControl _ r => !r
  | _ => false

/-- A step of the script: every external call except the two used to report an
error, `CorsairGetLastError` and `printf`. -/
def Event.isStep : Event → Bool
  | .CorsairGetLastError _ => false
  | .printf _ _ => false
  | _ => true

/-- One of the three calls of steps 1-3. -/
def Event.isSetupCall : Event → Bool
  | .CorsairPerformProtocolHandshake _ => true
  | .CorsairRequestControl _ _ => true
  | .CorsairSetLayerPriority _ _ => true
  | _ => false

/-- The blocking read of one character from standard input. -/
def Event.isGetchar : Event → Bool
  | .getchar _ => true
  | _ => false

/-- A sleep. -/
def Event.isUsleep : Event → Bool
  | .usleep _ => true
  | _ => false

/-- Output to the terminal. -/
def Event.isPrintf : Event → Bool
  | .printf _ _ => true
  | _ => false

/-- A color read, `CorsairGetLedsColorsByDeviceIndex`. -/
def Event.isLedGet : Event → Bool
  | .CorsairGetLedsColorsByDeviceIndex _ _ _ _ _ => true
  | _ => false

/-- A buffer write, `CorsairSetLedsColorsBufferByDeviceIndex`. -/
def Event.isLedSet : Event → Bool
  | .CorsairSetLedsColorsBufferByDeviceIndex _ _ _ _ => true
  | _ => false

/-- A flush, `CorsairSetLedsColorsFlushBuffer`. -/
def Event.isFlush : Event → Bool
  | .CorsairSetLedsColorsFlushBuffer _ => true
  | _ => false

/-- A release of control, `CorsairReleaseControl`. -/
def Event.isRelease : Event → Bool
  | .CorsairReleaseControl _ _ => true
  | _ => false

/-- The device index, the array size and the record an LED get or set call was
made with. -/
def Event.ledArgs : Event → Option (Int × Int × CorsairLedColor)
  | .CorsairGetLedsColorsByDeviceIndex deviceIndex size c _ _ => some (deviceIndex, size, c)
  | .CorsairSetLedsColorsBufferByDeviceIndex deviceIndex size c _ => some (deviceIndex, size, c)
  | _ => none

/-- A `CorsairSetLedsColorsBufferByDeviceIndex` call whose record is black. -/
def Event.isBlackWrite : Event → Bool
  | .CorsairSetLedsColorsBufferByDeviceIndex _ _ c _ =>
      decide (c.r = 0) && decide (c.g = 0) && decide (c.b = 0)
  | _ => false

/-- All ways of writing a list as `before ++ x :: after`, as triples
`(before, x, after)`. -/
def splits {α : Type} : List α → List (List α × α × List α)
  | [] => []
  | x :: xs => ([], x, xs) :: (splits xs).map (fun t => (x :: t.1, t.2.1, t.2.2))

/-! ## Concrete environments

Stateless SDKs that answer from a fixed table; they serve as test inputs. -/

/-- The answers of a table-driven SDK. -/
structure Answers where
  version : Int
  requestControl : Bool
  setLayerPriority : Bool
  deviceCount : Int
  deviceInfo : Int → Option CorsairDeviceInfo
  getColors : Bool
  color : CorsairLedColor
  setBuffer : Bool
  flush : Bool
  release : Bool
  lastError : Int

/-- The SDK that always answers from the table `a`.  A failed color read leaves
the caller's record untouched; `getchar` reads a newline. -/
def tableSDK (a : Answers) : CUESDK Unit where
  CAM_ExclusiveLightingControl := 0
  CDT_Keyboard := 2
  CLK_A := 38
  CorsairPerformProtocolHandshake := fun s => (⟨a.version⟩, s)
  CorsairRequestControl := fun _ s => (a.requestControl, s)
  CorsairSetLayerPriority := fun _ s => (a.setLayerPriority, s)
  CorsairGetDeviceCount := fun s => (a.deviceCount, s)
  CorsairGetDeviceInfo := fun i s => (a.deviceInfo i, s)
  CorsairGetLedsColorsByDeviceIndex := fun _ _ c s =>
    ((a.getColors, if a.getColors then a.color else c), s)
  CorsairSetLedsColorsBufferByDeviceIndex := fun _ _ _ s => (a.setBuffer, s)
  CorsairSetLedsColorsFlushBuffer := fun s => (a.flush, s)
  CorsairReleaseControl := fun _ s => (a.release, s)
  CorsairGetLastError := fun s => (a.lastError, s)
  usleep := fun _ s => s
  getchar := fun s => (10, s)

/-- Three devices, the keyboard last: index 0 answers null, index 1 is a device
of type 1, index 2 is the keyboard.  Every call succeeds. -/
def okAnswers : Answers where
  version := 4
  requestControl := true
  setLayerPriority := true
  deviceCount := 3
  deviceInfo := fun i => if i = 0 then none else if i = 1 then some ⟨1⟩ else some ⟨2⟩
  getColors := true
  color := ⟨38, 10, 20, 30⟩
  setBuffer := true
  flush := true
  release := true
  lastError := 0

/-- A single device, the keyboard.  Every call succeeds. -/
def oneKeyboard : Answers :=
  { okAnswers with deviceCount := 1, deviceInfo := fun _ => some ⟨2⟩ }

/-- As `okAnswers`, but the handshake answers protocol version 0. -/
def handshakeFails : Answers := { okAnswers with version := 0, lastError := 1 }

/-- As `okAnswers`, but `CorsairSetLayerPriority` answers `false`. -/
def priorityFails : Answers := { okAnswers with setLayerPriority := false, lastError := 3 }

/-- As `oneKeyboard`, but `CorsairGetLedsColorsByDeviceIndex` answers `false`. -/
def readFails : Answers := { oneKeyboard with getColors := false, lastError := 5 }

/-- As `oneKeyboard`, but `CorsairSetLedsColorsBufferByDeviceIndex` answers `false`. -/
def setFails : Answers := { oneKeyboard with setBuffer := false, lastError := 7 }


/-! ## The loop -/

theorem isKeyboard_eq_true (sdk : CUESDK σ) (d : Option CorsairDeviceInfo) :
    isKeyboard sdk d = true ↔ d = some ⟨sdk.CDT_Keyboard⟩ := by
  cases d with
  | none => simp [isKeyboard]
  | some x =>
    cases x with
    | mk t => simp [isKeyboard]

theorem queries_append (i : Int) (xs ys : List (Option CorsairDeviceInfo)) :
    queries i (xs ++ ys) = queries i xs ++ queries (i + xs.length) ys := by
  induction xs generalizing i with
  | nil => simp [queries]
  | cons x xs ih =>
    have hidx : i + 1 + (xs.length : Int) = i + ((xs.length : Int) + 1) := by ring
    have hstep := ih (i + 1)
    rw [hidx] at hstep
    simp only [List.cons_append, queries, List.length_cons, Nat.cast_succ]
    exact congrArg _ hstep

theorem mem_queries {e : Event} {i : Int} {infos : List (Option CorsairDeviceInfo)}
    (h : e ∈ queries i infos) :
    ∃ j d, e = Event.CorsairGetDeviceInfo j d ∧ i ≤ j ∧ j < i + infos.length ∧ d ∈ infos := by
  induction infos generalizing i with
  | nil => simp [queries] at h
  | cons x xs ih =>
    simp only [queries, List.mem_cons] at h
    rcases h with h | h
    · exact ⟨i, x, h, le_refl _, by simp, by simp⟩
    · obtain ⟨j, d, he, h1, h2, h3⟩ := ih h
      refine ⟨j, d, he, by omega, ?_, by simp [h3]⟩
      simp only [List.length_cons, Nat.cast_succ]
      omega

/-- What the loop does from index `i` on: it asks for consecutive device infos
and stops at the first keyboard answer or at `deviceCount`. -/
theorem main_for_spec (sdk : CUESDK σ) (n : Int) :
    ∀ (m : Nat) (i : Int) (w : World σ), (n - i).toNat = m → 0 ≤ i →
      ∃ infos, (main_for sdk n i w).2.trace = w.trace ++ queries i infos ∧
        (∀ j d, Event.CorsairGetDeviceInfo j d ∈ queries i infos →
          ∃ st, (sdk.CorsairGetDeviceInfo j st).1 = d) ∧
        (((main_for sdk n i w).1 = -1 ∧ (∀ d ∈ infos, isKeyboard sdk d = false) ∧
            (infos.length : Int) = max (n - i) 0) ∨
         (∃ skipped, infos = skipped ++ [some ⟨sdk.CDT_Keyboard⟩] ∧
            (∀ d ∈ skipped, isKeyboard sdk d = false) ∧
            (main_for sdk n i w).1 = i + skipped.length ∧ i + skipped.length < n)) := by
  intro m
  induction m with
  | zero =>
    intro i w hm hi
    have hge : ¬ i < n := by omega
    rw [main_for, dif_neg hge]
    refine ⟨[], by simp [queries], by simp [queries], Or.inl ⟨rfl, by simp, ?_⟩⟩
    simp only [List.length_nil, Nat.cast_zero]
    omega
  | succ m ih =>
    intro i w hm hi
    have hlt : i < n := by omega
    rw [main_for, dif_pos hlt]
    by_cases hk : isKeyboard sdk (CorsairGetDeviceInfo sdk i w).1 = true
    · simp only [hk, if_true]
      refine ⟨[some ⟨sdk.CDT_Keyboard⟩], ?_, ?_, Or.inr ⟨[], by simp, by simp, by simp, by simpa using hlt⟩⟩
      · rw [isKeyboard_eq_true] at hk
        simp only [CorsairGetDeviceInfo] at hk
        simp [CorsairGetDeviceInfo, World.emit, queries, hk]
      · intro j d hjd
        simp only [queries, List.mem_singleton, Event.CorsairGetDeviceInfo.injEq] at hjd
        rw [isKeyboard_eq_true] at hk
        simp only [CorsairGetDeviceInfo] at hk
        exact ⟨w.state, by rw [hjd.1, hjd.2, hk]⟩
    · simp only [hk, Bool.false_eq_true, if_false]
      obtain ⟨infos, htr, hprov, hres⟩ :=
        ih (i + 1) (CorsairGetDeviceInfo sdk i w).2 (by omega) (by omega)
      refine ⟨(sdk.CorsairGetDeviceInfo i w.state).1 :: infos, ?_, ?_, ?_⟩
      · rw [htr]
        simp [CorsairGetDeviceInfo, World.emit, queries]
      · intro j d hjd
        simp only [queries, List.mem_cons, Event.CorsairGetDeviceInfo.injEq] at hjd
        rcases hjd with ⟨rfl, rfl⟩ | hjd
        · exact ⟨w.state, rfl⟩
        · exact hprov j d hjd
      · have hk0 : isKeyboard sdk (sdk.CorsairGetDeviceInfo i w.state).1 = false := by
          simpa [CorsairGetDeviceInfo] using hk
        rcases hres with ⟨h1, h2, h3⟩ | ⟨skipped, h1, h2, h3, h4⟩
        · refine Or.inl ⟨h1, ?_, ?_⟩
          · intro d hd
            rcases List.mem_cons.1 hd with rfl | hd
            · exact hk0
            · exact h2 d hd
          · simp only [List.length_cons, Nat.cast_succ]
            omega
        · refine Or.inr ⟨(sdk.CorsairGetDeviceInfo i w.state).1 :: skipped, by simp [h1], ?_, ?_, ?_⟩
          · intro d hd
            rcases List.mem_cons.1 hd with rfl | hd
            · exact hk0
            · exact h2 d hd
          · rw [h3]
            simp only [List.length_cons, Nat.cast_succ]
            ring
          · simp only [List.length_cons, Nat.cast_succ]
            omega

/-! ## Every run has one of the seven outcomes -/

theorem read_trace (sdk : CUESDK σ) (k : Int) (w : World σ) :
    ∃ ok out err,
      (read_and_print_key_color sdk k sdk.CLK_A w).trace = w.trace ++ readEvents sdk k ok out err := by
  refine ⟨(sdk.CorsairGetLedsColorsByDeviceIndex k 1 ⟨sdk.CLK_A, 0, 0, 0⟩ w.state).1.1,
    (sdk.CorsairGetLedsColorsByDeviceIndex k 1 ⟨sdk.CLK_A, 0, 0, 0⟩ w.state).1.2,
    (sdk.CorsairGetLastError
      (sdk.CorsairGetLedsColorsByDeviceIndex k 1 ⟨sdk.CLK_A, 0, 0, 0⟩ w.state).2).1, ?_⟩
  unfold read_and_print_key_color readEvents
  by_cases h : (sdk.CorsairGetLedsColorsByDeviceIndex k 1 ⟨sdk.CLK_A, 0, 0, 0⟩ w.state).1.1 = true
  · simp [CorsairGetLedsColorsByDeviceIndex, CorsairGetLastError, printf, World.emit, h]
  · simp [CorsairGetLedsColorsByDeviceIndex, CorsairGetLastError, printf, World.emit, h]

theorem run_outcome (sdk : CUESDK σ) (s : σ) : Outcome sdk (run sdk s).1 (run sdk s).2 := by
  unfold run main
  simp only []
  -- step 1
  have e1 : (CorsairPerformProtocolHandshake sdk ⟨s, []⟩).2.trace =
      [Event.CorsairPerformProtocolHandshake
        ⟨(CorsairPerformProtocolHandshake sdk ⟨s, []⟩).1.serverProtocolVersion⟩] := rfl
  generalize CorsairPerformProtocolHandshake sdk ⟨s, []⟩ = hs at e1 ⊢
  by_cases h1 : hs.1.serverProtocolVersion = 0
  · rw [if_pos h1]
    simp only [printf, World.emit, e1, h1, List.cons_append, List.nil_append]
    exact Outcome.handshakeFailed
  rw [if_neg h1]
  -- step 2
  have e2 : (CorsairRequestControl sdk sdk.CAM_ExclusiveLightingControl hs.2).2.trace =
      hs.2.trace ++ [Event.CorsairRequestControl sdk.CAM_ExclusiveLightingControl
        (CorsairRequestControl sdk sdk.CAM_ExclusiveLightingControl hs.2).1] := rfl
  generalize CorsairRequestControl sdk sdk.CAM_ExclusiveLightingControl hs.2 = rc at e2 ⊢
  rw [e1] at e2
  by_cases h2 : rc.1 = true
  swap
  · simp only [Bool.not_eq_true] at h2
    simp only [h2, Bool.not_false, if_true, printf, World.emit, e2, List.cons_append,
      List.nil_append]
    exact Outcome.requestFailed _ h1
  simp only [h2, Bool.not_true, Bool.false_eq_true, if_false]
  rw [h2] at e2
  -- step 3
  have e3 : (CorsairSetLayerPriority sdk 128 rc.2).2.trace =
      rc.2.trace ++ [Event.CorsairSetLayerPriority 128
        (CorsairSetLayerPriority sdk 128 rc.2).1] := rfl
  generalize CorsairSetLayerPriority sdk 128 rc.2 = lp at e3 ⊢
  rw [e2] at e3
  by_cases h3 : lp.1 = true
  swap
  · simp only [Bool.not_eq_true] at h3
    simp only [h3, Bool.not_false, if_true, printf, World.emit, e3, List.cons_append,
      List.nil_append]
    exact Outcome.priorityFailed _ h1
  simp only [h3, Bool.not_true, Bool.false_eq_true, if_false]
  rw [h3] at e3
  -- step 4
  have e4 : (CorsairGetDeviceCount sdk lp.2).2.trace =
      lp.2.trace ++ [Event.CorsairGetDeviceCount (CorsairGetDeviceCount sdk lp.2).1] := rfl
  generalize CorsairGetDeviceCount sdk lp.2 = dc at e4 ⊢
  rw [e3] at e4
  obtain ⟨infos, e5, hprov, hres⟩ := main_for_spec sdk dc.1 _ 0 dc.2 rfl (le_refl 0)
  generalize main_for sdk dc.1 0 dc.2 = kb at e5 hres ⊢
  rw [e4] at e5
  simp only [List.cons_append, List.nil_append] at e5
  rcases hres with ⟨hk, hno, hlen⟩ | ⟨skipped, rfl, hno, hk, hlt⟩
  · rw [if_pos hk]
    simp only [printf, World.emit, e5]
    have := @Outcome.noKeyboard σ sdk _ h1 dc.1 infos hno (by simpa using hlen) hprov
    simpa [upToLoop] using this
  have hk1 : kb.1 ≠ -1 := by rw [hk]; omega
  rw [if_neg hk1]
  simp only [zero_add] at hk hlt
  simp only [hk]
  -- step 5
  obtain ⟨ok, out, err, e6⟩ := read_trace sdk (skipped.length : Int)
    (printf "Reading initial color of 'A' key...\n" [] kb.2)
  generalize read_and_print_key_color sdk (skipped.length : Int) sdk.CLK_A
    (printf "Reading initial color of 'A' key...\n" [] kb.2) = w5 at e6 ⊢
  -- step 6
  have e7 : (printf "\nSetting the 'A' key to red...\n" [] w5).trace =
      w5.trace ++ [Event.printf "\nSetting the 'A' key to red...\n" []] := rfl
  generalize printf "\nSetting the 'A' key to red...\n" [] w5 = w6 at e7 ⊢
  have e8 : (CorsairSetLedsColorsBufferByDeviceIndex sdk (skipped.length : Int) 1
        ⟨sdk.CLK_A, 255, 0, 0⟩ w6).2.trace =
      w6.trace ++ [Event.CorsairSetLedsColorsBufferByDeviceIndex (skipped.length : Int) 1
        ⟨sdk.CLK_A, 255, 0, 0⟩
        (CorsairSetLedsColorsBufferByDeviceIndex sdk (skipped.length : Int) 1
          ⟨sdk.CLK_A, 255, 0, 0⟩ w6).1] := rfl
  generalize CorsairSetLedsColorsBufferByDeviceIndex sdk (skipped.length : Int) 1
    ⟨sdk.CLK_A, 255, 0, 0⟩ w6 = sb at e8 ⊢
  have hpre : w6.trace = upToSet sdk hs.1.serverProtocolVersion dc.1 skipped ok out err := by
    rw [e7, e6]
    simp [printf, World.emit, e5, upToSet, upToLoop]
  rw [hpre] at e8
  by_cases h5 : sb.1 = true
  swap
  · simp only [Bool.not_eq_true] at h5
    simp only [h5, Bool.not_false, if_true, printf, World.emit, CorsairGetLastError, e8,
      List.append_assoc, List.cons_append, List.nil_append]
    exact Outcome.setFailed _ h1 dc.1 skipped hno hlt hprov ok out err _
  simp only [h5, Bool.not_true, Bool.false_eq_true, if_false]
  rw [h5] at e8
  have e9 : (CorsairSetLedsColorsFlushBuffer sdk sb.2).2.trace =
      sb.2.trace ++ [Event.CorsairSetLedsColorsFlushBuffer
        (CorsairSetLedsColorsFlushBuffer sdk sb.2).1] := rfl
  generalize CorsairSetLedsColorsFlushBuffer sdk sb.2 = fl at e9 ⊢
  rw [e8] at e9
  by_cases h6 : fl.1 = true
  swap
  · simp only [Bool.not_eq_true] at h6
    simp only [h6, Bool.not_false, if_true, printf, World.emit, CorsairGetLastError, e9,
      List.append_assoc, List.cons_append, List.nil_append]
    exact Outcome.flushFailed _ h1 dc.1 skipped hno hlt hprov ok out err _
  simp only [h6, Bool.not_true, Bool.false_eq_true, if_false]
  rw [h6] at e9
  -- step 7
  obtain ⟨ok2, out2, err2, e10⟩ := read_trace sdk (skipped.length : Int)
    (printf "\nReading color of 'A' key after setting...\n" []
      (usleep sdk 3000000 (printf "Set color command sent.\n" [] fl.2)))
  generalize read_and_print_key_color sdk (skipped.length : Int) sdk.CLK_A
    (printf "\nReading color of 'A' key after setting...\n" []
      (usleep sdk 3000000 (printf "Set color command sent.\n" [] fl.2))) = w7 at e10 ⊢
  simp only [printf, usleep, World.emit, e9] at e10
  -- step 8
  simp only [printf, getchar, CorsairSetLedsColorsBufferByDeviceIndex,
    CorsairSetLedsColorsFlushBuffer, CorsairReleaseControl, World.emit, e10,
    List.append_assoc, List.cons_append, List.nil_append]
  have := @Outcome.completed σ sdk _ h1 dc.1 skipped hno hlt hprov ok out err ok2 out2 err2
  simp only [List.append_assoc, List.cons_append, List.nil_append] at this
  exact this _ _ _ _


theorem mem_splits {α : Type} (l pre : List α) (e : α) (post : List α) :
    (pre, e, post) ∈ splits l ↔ l = pre ++ e :: post := by
  induction l generalizing pre with
  | nil => simp [splits]
  | cons x xs ih =>
    simp only [splits, List.mem_cons, List.mem_map, Prod.mk.injEq, Prod.exists]
    constructor
    · rintro (⟨rfl, rfl, rfl⟩ | ⟨a, b, c, hm, rfl, rfl, rfl⟩)
      · rfl
      · rw [ih] at hm
        rw [hm]
        rfl
    · intro h
      cases pre with
      | nil =>
        simp only [List.nil_append, List.cons.injEq] at h
        exact Or.inl ⟨rfl, h.1.symm, h.2.symm⟩
      | cons p ps =>
        simp only [List.cons_append, List.cons.injEq] at h
        exact Or.inr ⟨ps, e, post, (ih ps).2 h.2, by rw [h.1], rfl, rfl⟩

theorem splits_append {α : Type} (l xs : List α) :
    splits (l ++ xs) = (splits l).map (fun t => (t.1, t.2.1, t.2.2 ++ xs)) ++
      (splits xs).map (fun t => (l ++ t.1, t.2.1, t.2.2)) := by
  induction l with
  | nil => simp [splits]
  | cons x l ih => simp [splits, ih, Function.comp_def]

theorem forall_splits {α : Type} (l : List α) (Q : List α → α → List α → Prop) :
    (∀ pre e post, l = pre ++ e :: post → Q pre e post) ↔
      ∀ t ∈ splits l, Q t.1 t.2.1 t.2.2 := by
  constructor
  · rintro h ⟨pre, e, post⟩ ht
    exact h pre e post ((mem_splits l pre e post).1 ht)
  · intro h pre e post hl
    exact h (pre, e, post) ((mem_splits l pre e post).2 hl)

theorem forall_splits_queries (i : Int) (infos : List (Option CorsairDeviceInfo))
    (Q : List Event × Event × List Event → Prop) :
    (∀ t ∈ splits (queries i infos), Q t) ↔
      ∀ a b c, infos = a ++ b :: c →
        Q (queries i a, Event.CorsairGetDeviceInfo (i + a.length) b,
          queries (i + a.length + 1) c) := by
  constructor
  · intro h a b c habc
    apply h
    rw [mem_splits, habc, queries_append]
    rfl
  · rintro h ⟨pre, e, post⟩ ht
    rw [mem_splits] at ht
    induction infos generalizing i pre Q with
    | nil => cases pre <;> simp [queries] at ht
    | cons x xs ih =>
      cases pre with
      | nil =>
        simp only [queries, List.nil_append, List.cons.injEq] at ht
        have := h [] x xs rfl
        simpa [queries, ← ht.1, ← ht.2] using this
      | cons p ps =>
        simp only [queries, List.cons_append, List.cons.injEq] at ht
        have key := ih (i + 1) (fun t => Q (Event.CorsairGetDeviceInfo i x :: t.1, t.2.1, t.2.2))
          (fun a b c habc => by
            have := h (x :: a) b c (by rw [habc]; rfl)
            simp only [queries, List.length_cons, Nat.cast_succ] at this
            have e1 : i + ((a.length : Int) + 1) = i + 1 + a.length := by ring
            rw [e1] at this
            exact this) ps ht.2
        rw [← ht.1]
        exact key


/-! ## Membership in the loop's part of the trace -/

theorem mem_queries_iff (e : Event) (i : Int) (infos : List (Option CorsairDeviceInfo)) :
    e ∈ queries i infos ↔
      ∃ (idx : Nat) (d : Option CorsairDeviceInfo),
        infos[idx]? = some d ∧ e = Event.CorsairGetDeviceInfo (i + idx) d := by
  induction infos generalizing i with
  | nil => simp [queries]
  | cons x xs ih =>
    simp only [queries, List.mem_cons, ih]
    constructor
    · rintro (rfl | ⟨idx, d, hd, rfl⟩)
      · exact ⟨0, x, by simp, by simp⟩
      · refine ⟨idx + 1, d, by simpa using hd, ?_⟩
        simp only [Nat.cast_succ]
        congr 1
        ring
    · rintro ⟨idx, d, hd, rfl⟩
      cases idx with
      | zero =>
        simp only [List.getElem?_cons_zero, Option.some.injEq] at hd
        exact Or.inl (by simp [hd])
      | succ k =>
        simp only [List.getElem?_cons_succ] at hd
        refine Or.inr ⟨k, d, hd, ?_⟩
        simp only [Nat.cast_succ]
        congr 1
        ring

/-- With a table-driven `CorsairGetDeviceInfo` the loop returns the least
keyboard index of the table at or after `i`, or `-1` when there is none below
`deviceCount`. -/
theorem main_for_table (sdk : CUESDK σ) (info : Int → Option CorsairDeviceInfo)
    (htable : ∀ i st, (sdk.CorsairGetDeviceInfo i st).1 = info i) (n : Int) :
    ∀ (m : Nat) (i : Int) (w : World σ), (n - i).toNat = m → 0 ≤ i →
      ((main_for sdk n i w).1 = -1 ∧ ∀ j, i ≤ j → j < n → isKeyboard sdk (info j) = false) ∨
      (i ≤ (main_for sdk n i w).1 ∧ (main_for sdk n i w).1 < n ∧
        isKeyboard sdk (info (main_for sdk n i w).1) = true ∧
        ∀ j, i ≤ j → j < (main_for sdk n i w).1 → isKeyboard sdk (info j) = false) := by
  intro m
  induction m with
  | zero =>
    intro i w hm hi
    have hge : ¬ i < n := by omega
    rw [main_for, dif_neg hge]
    exact Or.inl ⟨rfl, fun j h1 h2 => by omega⟩
  | succ m ih =>
    intro i w hm hi
    have hlt : i < n := by omega
    have hans : (CorsairGetDeviceInfo sdk i w).1 = info i := htable i w.state
    rw [main_for, dif_pos hlt]
    by_cases hk : isKeyboard sdk (info i) = true
    · simp only [hans, hk, if_true]
      exact Or.inr ⟨le_refl _, hlt, trivial, fun j h1 h2 => by omega⟩
    · simp only [hans, hk, Bool.false_eq_true, if_false]
      simp only [Bool.not_eq_true] at hk
      rcases ih (i + 1) (CorsairGetDeviceInfo sdk i w).2 (by omega) (by omega) with
        ⟨h1, h2⟩ | ⟨h1, h2, h3, h4⟩
      · refine Or.inl ⟨h1, fun j hj1 hj2 => ?_⟩
        rcases eq_or_lt_of_le hj1 with rfl | hj
        · exact hk
        · exact h2 j (by omega) hj2
      · refine Or.inr ⟨by omega, h2, h3, fun j hj1 hj2 => ?_⟩
        rcases eq_or_lt_of_le hj1 with rfl | hj
        · exact hk
        · exact h4 j (by omega) hj2

theorem filter_queries (p : Event → Bool) (hp : ∀ j d, p (Event.CorsairGetDeviceInfo j d) = true)
    (i : Int) (infos : List (Option CorsairDeviceInfo)) :
    (queries i infos).filter p = queries i infos := by
  induction infos generalizing i with
  | nil => simp [queries]
  | cons x xs ih => simp [queries, hp, ih]

theorem countP_queries (p : Event → Bool)
    (hp : ∀ j d, p (Event.CorsairGetDeviceInfo j d) = false)
    (i : Int) (infos : List (Option CorsairDeviceInfo)) :
    (queries i infos).countP p = 0 := by
  induction infos generalizing i with
  | nil => simp [queries]
  | cons x xs ih => simp [queries, hp, ih]

/-- The loop's part of the trace holds exactly one keyboard answer, the last. -/
theorem keyboard_query_unique (sdk : CUESDK σ) (skipped : List (Option CorsairDeviceInfo))
    (hno : ∀ d ∈ skipped, isKeyboard sdk d = false) (j : Int) (d : Option CorsairDeviceInfo)
    (hmem : Event.CorsairGetDeviceInfo j d ∈ queries 0 (skipped ++ [some ⟨sdk.CDT_Keyboard⟩]))
    (hd : isKeyboard sdk d = true) : j = skipped.length := by
  rw [mem_queries_iff] at hmem
  obtain ⟨idx, d', hget, heq⟩ := hmem
  simp only [Event.CorsairGetDeviceInfo.injEq, zero_add] at heq
  obtain ⟨rfl, rfl⟩ := heq
  rcases Nat.lt_trichotomy idx skipped.length with h | h | h
  · rw [List.getElem?_append_left h] at hget
    have hmem' : d ∈ skipped := List.getElem?_mem hget
    rw [hno d hmem'] at hd
    exact absurd hd (by simp)
  · rw [h]
  · have : (skipped ++ [some (⟨sdk.CDT_Keyboard⟩ : CorsairDeviceInfo)])[idx]? = none := by
      apply List.getElem?_eq_none
      simp only [List.length_append, List.length_singleton]
      omega
    rw [this] at hget
    exact absurd hget (by simp)

theorem keyboard_query_mem (sdk : CUESDK σ) (skipped : List (Option CorsairDeviceInfo)) :
    Event.CorsairGetDeviceInfo skipped.length (some ⟨sdk.CDT_Keyboard⟩) ∈
      queries 0 (skipped ++ [some ⟨sdk.CDT_Keyboard⟩]) := by
  rw [mem_queries_iff]
  exact ⟨skipped.length, some ⟨sdk.CDT_Keyboard⟩, by simp, by simp⟩

theorem query_mem_upToSet (sdk : CUESDK σ) (v n : Int)
    (skipped : List (Option CorsairDeviceInfo)) (ok : Bool) (out : CorsairLedColor) (err : Int)
    (j : Int) (d : Option CorsairDeviceInfo) :
    Event.CorsairGetDeviceInfo j d ∈ upToSet sdk v n skipped ok out err ↔
      Event.CorsairGetDeviceInfo j d ∈ queries 0 (skipped ++ [some ⟨sdk.CDT_Keyboard⟩]) := by
  cases ok <;> simp [upToSet, upToLoop, readEvents]

theorem any_queries (p : Event → Bool) (hp : ∀ j d, p (Event.CorsairGetDeviceInfo j d) = false)
    (i : Int) (infos : List (Option CorsairDeviceInfo)) :
    (queries i infos).any p = false := by
  induction infos generalizing i with
  | nil => simp [queries]
  | cons x xs ih => simp [queries, hp, ih]

theorem any_queries_isGetchar (i : Int) (infos : List (Option CorsairDeviceInfo)) :
    (queries i infos).any Event.isGetchar = false :=
  any_queries _ (fun _ _ => rfl) i infos

theorem any_queries_isLedSet (i : Int) (infos : List (Option CorsairDeviceInfo)) :
    (queries i infos).any Event.isLedSet = false :=
  any_queries _ (fun _ _ => rfl) i infos

theorem any_queries_isRelease (i : Int) (infos : List (Option CorsairDeviceInfo)) :
    (queries i infos).any Event.isRelease = false :=
  any_queries _ (fun _ _ => rfl) i infos

theorem any_queries_isBlackWrite (i : Int) (infos : List (Option CorsairDeviceInfo)) :
    (queries i infos).any Event.isBlackWrite = false :=
  any_queries _ (fun _ _ => rfl) i infos

theorem query_mem_readEvents (sdk : CUESDK σ) (k : Int) (ok : Bool) (out : CorsairLedColor)
    (err : Int) (j : Int) (d : Option CorsairDeviceInfo) :
    Event.CorsairGetDeviceInfo j d ∈ readEvents sdk k ok out err ↔ False := by
  cases ok <;> simp [readEvents]

/-- Against a table-driven SDK, a run whose loop found the keyboard after the
answers `skipped` asked for exactly the device infos of the indices up to the
least keyboard index `k` of the table. -/
theorem found_queries_table (sdk : CUESDK σ) (info : Int → Option CorsairDeviceInfo)
    (htable : ∀ i st, (sdk.CorsairGetDeviceInfo i st).1 = info i)
    (skipped : List (Option CorsairDeviceInfo))
    (hno : ∀ d ∈ skipped, isKeyboard sdk d = false)
    (hprov : ∀ j d, Event.CorsairGetDeviceInfo j d ∈
        queries 0 (skipped ++ [some ⟨sdk.CDT_Keyboard⟩]) →
      ∃ st, (sdk.CorsairGetDeviceInfo j st).1 = d)
    (k : Int) (hk0 : 0 ≤ k) (hkb : isKeyboard sdk (info k) = true)
    (hleast : ∀ j, 0 ≤ j → j < k → isKeyboard sdk (info j) = false) :
    k = skipped.length ∧
      ∀ j d, Event.CorsairGetDeviceInfo j d ∈
          queries 0 (skipped ++ [some ⟨sdk.CDT_Keyboard⟩]) ↔
        (0 ≤ j ∧ j ≤ k ∧ d = info j) := by
  have hel : ∀ (idx : Nat) (d : Option CorsairDeviceInfo),
      (skipped ++ [some (⟨sdk.CDT_Keyboard⟩ : CorsairDeviceInfo)])[idx]? = some d →
        d = info idx := by
    intro idx d h
    obtain ⟨st, hst⟩ := hprov idx d ((mem_queries_iff _ _ _).2 ⟨idx, d, h, by simp⟩)
    rw [htable] at hst
    exact hst.symm
  have hlast : info skipped.length = some ⟨sdk.CDT_Keyboard⟩ :=
    (hel skipped.length _ (by simp)).symm
  have hbelow : ∀ idx : Nat, idx < skipped.length → isKeyboard sdk (info idx) = false := by
    intro idx hidx
    have h1 : (skipped ++ [some (⟨sdk.CDT_Keyboard⟩ : CorsairDeviceInfo)])[idx]? =
        some skipped[idx] := by
      rw [List.getElem?_append_left hidx]
      exact List.getElem?_eq_getElem hidx
    rw [← hel idx _ h1]
    exact hno _ (List.getElem_mem hidx)
  have hk : k = skipped.length := by
    rcases lt_trichotomy k skipped.length with h | h | h
    · have h2 := hbelow k.toNat (by omega)
      rw [Int.toNat_of_nonneg hk0, hkb] at h2
      exact absurd h2 (by simp)
    · exact h
    · have h2 := hleast skipped.length (by omega) h
      rw [hlast] at h2
      simp [isKeyboard] at h2
  refine ⟨hk, fun j d => ?_⟩
  rw [mem_queries_iff]
  constructor
  · rintro ⟨idx, d', hget, heq⟩
    simp only [Event.CorsairGetDeviceInfo.injEq, zero_add] at heq
    obtain ⟨rfl, rfl⟩ := heq
    have hlen : idx < (skipped ++ [some (⟨sdk.CDT_Keyboard⟩ : CorsairDeviceInfo)]).length := by
      by_contra hge
      rw [List.getElem?_eq_none (by omega)] at hget
      exact absurd hget (by simp)
    simp only [List.length_append, List.length_singleton] at hlen
    exact ⟨by omega, by omega, hel idx d hget⟩
  · rintro ⟨hj0, hjk, rfl⟩
    have hlen : j.toNat < (skipped ++ [some (⟨sdk.CDT_Keyboard⟩ : CorsairDeviceInfo)]).length := by
      simp only [List.length_append, List.length_singleton]
      omega
    refine ⟨j.toNat, _, List.getElem?_eq_getElem hlen, ?_⟩
    have := hel j.toNat _ (List.getElem?_eq_getElem hlen)
    rw [Int.toNat_of_nonneg hj0] at this
    rw [this]
    simp [Int.toNat_of_nonneg hj0]

/-- A table with a keyboard below `n` has a least keyboard index. -/
theorem least_keyboard (sdk : CUESDK σ) (info : Int → Option CorsairDeviceInfo) (n : Int)
    (h : ∃ i, 0 ≤ i ∧ i < n ∧ isKeyboard sdk (info i) = true) :
    ∃ k, 0 ≤ k ∧ k < n ∧ isKeyboard sdk (info k) = true ∧
      ∀ j, 0 ≤ j → j < k → isKeyboard sdk (info j) = false := by
  obtain ⟨i, hi0, hin, hik⟩ := h
  have hex : ∃ m : Nat, (m : Int) < n ∧ isKeyboard sdk (info m) = true :=
    ⟨i.toNat, by omega, by rw [Int.toNat_of_nonneg hi0]; exact hik⟩
  classical
  have hfn : (Nat.find hex : Int) < n := (Nat.find_spec hex).1
  refine ⟨Nat.find hex, by omega, hfn, (Nat.find_spec hex).2, ?_⟩
  intro j hj0 hjk
  by_contra hkb
  have hlt : j.toNat < Nat.find hex := by omega
  apply Nat.find_min hex hlt
  rw [Int.toNat_of_nonneg hj0]
  exact ⟨by omega, by simpa using hkb⟩


/-! ## The concrete runs -/

theorem run_okAnswers :
    run (tableSDK okAnswers) () =
      (0,
       [Event.CorsairPerformProtocolHandshake ⟨4⟩,
        Event.CorsairRequestControl 0 true,
        Event.CorsairSetLayerPriority 128 true,
        Event.CorsairGetDeviceCount 3,
        Event.CorsairGetDeviceInfo 0 none,
        Event.CorsairGetDeviceInfo 1 (some ⟨1⟩),
        Event.CorsairGetDeviceInfo 2 (some ⟨2⟩),
        Event.printf "Reading initial color of 'A' key...\n" [],
        Event.CorsairGetLedsColorsByDeviceIndex 2 1 ⟨38, 0, 0, 0⟩ true ⟨38, 10, 20, 30⟩,
        Event.printf "dKey %d color is: R=%d, G=%d, B=%d\n" [38, 10, 20, 30],
        Event.printf "\nSetting the 'A' key to red...\n" [],
        Event.CorsairSetLedsColorsBufferByDeviceIndex 2 1 ⟨38, 255, 0, 0⟩ true,
        Event.CorsairSetLedsColorsFlushBuffer true,
        Event.printf "Set color command sent.\n" [],
        Event.usleep 3000000,
        Event.printf "\nReading color of 'A' key after setting...\n" [],
        Event.CorsairGetLedsColorsByDeviceIndex 2 1 ⟨38, 0, 0, 0⟩ true ⟨38, 10, 20, 30⟩,
        Event.printf "dKey %d color is: R=%d, G=%d, B=%d\n" [38, 10, 20, 30],
        Event.printf "\nPress Enter to exit and reset the color.\n" [],
        Event.getchar 10,
        Event.printf "Resetting color and releasing control...\n" [],
        Event.CorsairSetLedsColorsBufferByDeviceIndex 2 1 ⟨38, 0, 0, 0⟩ true,
        Event.CorsairSetLedsColorsFlushBuffer true,
        Event.CorsairReleaseControl 0 true]) := by
  simp [run, main, main_for, read_and_print_key_color, isKeyboard,
    CorsairPerformProtocolHandshake, CorsairRequestControl, CorsairSetLayerPriority,
    CorsairGetDeviceCount, CorsairGetDeviceInfo, CorsairGetLedsColorsByDeviceIndex,
    CorsairSetLedsColorsBufferByDeviceIndex, CorsairSetLedsColorsFlushBuffer,
    CorsairReleaseControl, CorsairGetLastError, usleep, getchar, printf, World.emit,
    tableSDK, okAnswers]

theorem run_readFails :
    run (tableSDK readFails) () =
      (0,
       [Event.CorsairPerformProtocolHandshake ⟨4⟩,
        Event.CorsairRequestControl 0 true,
        Event.CorsairSetLayerPriority 128 true,
        Event.CorsairGetDeviceCount 1,
        Event.CorsairGetDeviceInfo 0 (some ⟨2⟩),
        Event.printf "Reading initial color of 'A' key...\n" [],
        Event.CorsairGetLedsColorsByDeviceIndex 0 1 ⟨38, 0, 0, 0⟩ false ⟨38, 0, 0, 0⟩,
        Event.CorsairGetLastError 5,
        Event.printf "Error getting key color: %d\n" [5],
        Event.printf "\nSetting the 'A' key to red...\n" [],
        Event.CorsairSetLedsColorsBufferByDeviceIndex 0 1 ⟨38, 255, 0, 0⟩ true,
        Event.CorsairSetLedsColorsFlushBuffer true,
        Event.printf "Set color command sent.\n" [],
        Event.usleep 3000000,
        Event.printf "\nReading color of 'A' key after setting...\n" [],
        Event.CorsairGetLedsColorsByDeviceIndex 0 1 ⟨38, 0, 0, 0⟩ false ⟨38, 0, 0, 0⟩,
        Event.CorsairGetLastError 5,
        Event.printf "Error getting key color: %d\n" [5],
        Event.printf "\nPress Enter to exit and reset the color.\n" [],
        Event.getchar 10,
        Event.printf "Resetting color and releasing control...\n" [],
        Event.CorsairSetLedsColorsBufferByDeviceIndex 0 1 ⟨38, 0, 0, 0⟩ true,
        Event.CorsairSetLedsColorsFlushBuffer true,
        Event.CorsairReleaseControl 0 true]) := by
  simp [run, main, main_for, read_and_print_key_color, isKeyboard,
    CorsairPerformProtocolHandshake, CorsairRequestControl, CorsairSetLayerPriority,
    CorsairGetDeviceCount, CorsairGetDeviceInfo, CorsairGetLedsColorsByDeviceIndex,
    CorsairSetLedsColorsBufferByDeviceIndex, CorsairSetLedsColorsFlushBuffer,
    CorsairReleaseControl, CorsairGetLastError, usleep, getchar, printf, World.emit,
    tableSDK, readFails, oneKeyboard, okAnswers]

theorem run_setFails :
    run (tableSDK setFails) () =
      (1,
       [Event.CorsairPerformProtocolHandshake ⟨4⟩,
        Event.CorsairRequestControl 0 true,
        Event.CorsairSetLayerPriority 128 true,
        Event.CorsairGetDeviceCount 1,
        Event.CorsairGetDeviceInfo 0 (some ⟨2⟩),
        Event.printf "Reading initial color of 'A' key...\n" [],
        Event.CorsairGetLedsColorsByDeviceIndex 0 1 ⟨38, 0, 0, 0⟩ true ⟨38, 10, 20, 30⟩,
        Event.printf "dKey %d color is: R=%d, G=%d, B=%d\n" [38, 10, 20, 30],
        Event.printf "\nSetting the 'A' key to red...\n" [],
        Event.CorsairSetLedsColorsBufferByDeviceIndex 0 1 ⟨38, 255, 0, 0⟩ false,
        Event.CorsairGetLastError 7,
        Event.printf "Error setting color: %d\n" [7]]) := by
  simp [run, main, main_for, read_and_print_key_color, isKeyboard,
    CorsairPerformProtocolHandshake, CorsairRequestControl, CorsairSetLayerPriority,
    CorsairGetDeviceCount, CorsairGetDeviceInfo, CorsairGetLedsColorsByDeviceIndex,
    CorsairSetLedsColorsBufferByDeviceIndex, CorsairSetLedsColorsFlushBuffer,
    CorsairReleaseControl, CorsairGetLastError, usleep, getchar, printf, World.emit,
    tableSDK, setFails, oneKeyboard, okAnswers]

theorem run_priorityFails :
    run (tableSDK priorityFails) () =
      (1,
       [Event.CorsairPerformProtocolHandshake ⟨4⟩,
        Event.CorsairRequestControl 0 true,
        Event.CorsairSetLayerPriority 128 false,
        Event.printf "Error setting layer priority.\n" []]) := by
  simp [run, main, CorsairPerformProtocolHandshake, CorsairRequestControl,
    CorsairSetLayerPriority, printf, World.emit, tableSDK, priorityFails, okAnswers]

theorem run_handshakeFails :
    run (tableSDK handshakeFails) () =
      (1,
       [Event.CorsairPerformProtocolHandshake ⟨0⟩,
        Event.printf "Error: CUE is not running or was not found.\n" []]) := by
  simp [run, main, CorsairPerformProtocolHandshake, printf, World.emit, tableSDK,
    handshakeFails, okAnswers]


/-! ## Exit status and progress of a run -/

theorem queried_all (infos : List (Option CorsairDeviceInfo)) (n j : Int)
    (hlen : (infos.length : Int) = max n 0) (h0 : 0 ≤ j) (h1 : j < n) :
    ∃ d, Event.CorsairGetDeviceInfo j d ∈ queries 0 infos := by
  have hidx : j.toNat < infos.length := by omega
  exact ⟨infos[j.toNat], (mem_queries_iff _ _ _).2
    ⟨j.toNat, _, List.getElem?_eq_getElem hidx, by simp [Int.toNat_of_nonneg h0]⟩⟩

/-- The exit status in terms of the answers recorded in the trace. -/
theorem run_exit_status (sdk : CUESDK σ) (s : σ) :
    ((run sdk s).1 = 0 ∨ (run sdk s).1 = 1) ∧
    ((run sdk s).1 = 0 ↔
      (∃ v, v ≠ 0 ∧ Event.CorsairPerformProtocolHandshake ⟨v⟩ ∈ (run sdk s).2) ∧
      Event.CorsairRequestControl sdk.CAM_ExclusiveLightingControl true ∈ (run sdk s).2 ∧
      Event.CorsairSetLayerPriority 128 true ∈ (run sdk s).2 ∧
      (∃ k, Event.CorsairGetDeviceInfo k (some ⟨sdk.CDT_Keyboard⟩) ∈ (run sdk s).2) ∧
      (∃ k, Event.CorsairSetLedsColorsBufferByDeviceIndex k 1 ⟨sdk.CLK_A, 255, 0, 0⟩ true ∈
        (run sdk s).2) ∧
      (∃ before later,
        (run sdk s).2 = before ++ Event.CorsairSetLedsColorsFlushBuffer true :: later ∧
        before.any Event.isGetchar = false)) ∧
    (∀ ch, Event.getchar ch ∈ (run sdk s).2 → (run sdk s).1 = 0) := by
  have hout := run_outcome sdk s
  generalize (run sdk s).1 = status at hout ⊢
  generalize (run sdk s).2 = tr at hout ⊢
  cases hout with
  | handshakeFailed => simp
  | requestFailed v hv => simp
  | priorityFailed v hv => simp
  | noKeyboard v hv n infos hno hlen hprov =>
    refine ⟨Or.inr rfl, ?_, by simp [upToLoop, mem_queries_iff]⟩
    simp only [one_ne_zero, false_iff, not_and]
    intro _ _ _ hk
    exfalso
    obtain ⟨k, hk⟩ := hk
    have hk' : Event.CorsairGetDeviceInfo k (some ⟨sdk.CDT_Keyboard⟩) ∈ queries 0 infos := by
      simpa [upToLoop] using hk
    obtain ⟨j, d, hjd, _, _, hd⟩ := mem_queries hk'
    simp only [Event.CorsairGetDeviceInfo.injEq] at hjd
    rw [← hjd.2] at hd
    have := hno _ hd
    simp [isKeyboard] at this
  | setFailed v hv n skipped hno hlt hprov ok out err e =>
    refine ⟨Or.inr rfl, ?_, ?_⟩
    · simp only [one_ne_zero, false_iff, not_and]
      intro _ _ _ _ hs
      exfalso
      obtain ⟨k, hs⟩ := hs
      cases ok <;> simp [upToSet, upToLoop, readEvents, mem_queries_iff] at hs
    · cases ok <;> simp [upToSet, upToLoop, readEvents, mem_queries_iff]
  | flushFailed v hv n skipped hno hlt hprov ok out err e =>
    refine ⟨Or.inr rfl, ?_, ?_⟩
    · simp only [one_ne_zero, false_iff, not_and, not_exists]
      intro _ _ _ _ _ before later hsplit
      exfalso
      have hmem : Event.CorsairSetLedsColorsFlushBuffer true ∈
          upToSet sdk v n skipped ok out err ++
            [Event.CorsairSetLedsColorsBufferByDeviceIndex skipped.length 1
               ⟨sdk.CLK_A, 255, 0, 0⟩ true,
             Event.CorsairSetLedsColorsFlushBuffer false,
             Event.CorsairGetLastError e,
             Event.printf "Error setting color: %d\n" [e]] := by
        rw [hsplit]; simp
      cases ok <;> simp [upToSet, upToLoop, readEvents, mem_queries_iff] at hmem
    · cases ok <;> simp [upToSet, upToLoop, readEvents, mem_queries_iff]
  | completed v hv n skipped hno hlt hprov ok out err ok2 out2 err2 ch sb fl rl =>
    refine ⟨Or.inl rfl, ?_, fun _ _ => rfl⟩
    simp only [true_iff]
    refine ⟨⟨v, hv, by simp [upToSet, upToLoop]⟩, by simp [upToSet, upToLoop],
      by simp [upToSet, upToLoop],
      ⟨skipped.length, by simp [query_mem_upToSet, keyboard_query_mem]⟩,
      ⟨skipped.length, by simp⟩,
      upToSet sdk v n skipped ok out err ++
        [Event.CorsairSetLedsColorsBufferByDeviceIndex skipped.length 1
           ⟨sdk.CLK_A, 255, 0, 0⟩ true],
      [Event.printf "Set color command sent.\n" [],
        Event.usleep 3000000,
        Event.printf "\nReading color of 'A' key after setting...\n" []] ++
        readEvents sdk skipped.length ok2 out2 err2 ++
        [Event.printf "\nPress Enter to exit and reset the color.\n" [],
          Event.getchar ch,
          Event.printf "Resetting color and releasing control...\n" [],
          Event.CorsairSetLedsColorsBufferByDeviceIndex skipped.length 1
            ⟨sdk.CLK_A, 0, 0, 0⟩ sb,
          Event.CorsairSetLedsColorsFlushBuffer fl,
          Event.CorsairReleaseControl sdk.CAM_ExclusiveLightingControl rl], by simp, ?_⟩
    cases ok <;>
      simp [upToSet, upToLoop, readEvents, Event.isGetchar, any_queries_isGetchar]

/-- Every run starts with the handshake and makes each later check as soon as
the checks before it passed. -/
theorem run_progress (sdk : CUESDK σ) (s : σ) :
    (∃ v rest, (run sdk s).2 = Event.CorsairPerformProtocolHandshake ⟨v⟩ :: rest) ∧
    ((∃ v, v ≠ 0 ∧ Event.CorsairPerformProtocolHandshake ⟨v⟩ ∈ (run sdk s).2) →
      ∃ r, Event.CorsairRequestControl sdk.CAM_ExclusiveLightingControl r ∈ (run sdk s).2) ∧
    (Event.CorsairRequestControl sdk.CAM_ExclusiveLightingControl true ∈ (run sdk s).2 →
      ∃ r, Event.CorsairSetLayerPriority 128 r ∈ (run sdk s).2) ∧
    (Event.CorsairSetLayerPriority 128 true ∈ (run sdk s).2 →
      ∃ n, Event.CorsairGetDeviceCount n ∈ (run sdk s).2 ∧
        ((∃ k, Event.CorsairGetDeviceInfo k (some ⟨sdk.CDT_Keyboard⟩) ∈ (run sdk s).2) ∨
          ∀ j, 0 ≤ j → j < n → ∃ d, Event.CorsairGetDeviceInfo j d ∈ (run sdk s).2)) ∧
    ((∃ k, Event.CorsairGetDeviceInfo k (some ⟨sdk.CDT_Keyboard⟩) ∈ (run sdk s).2) →
      ∃ k r, Event.CorsairSetLedsColorsBufferByDeviceIndex k 1 ⟨sdk.CLK_A, 255, 0, 0⟩ r ∈
        (run sdk s).2) ∧
    ((∃ k, Event.CorsairSetLedsColorsBufferByDeviceIndex k 1 ⟨sdk.CLK_A, 255, 0, 0⟩ true ∈
        (run sdk s).2) →
      ∃ r before later,
        (run sdk s).2 = before ++ Event.CorsairSetLedsColorsFlushBuffer r :: later ∧
        before.any Event.isGetchar = false) := by
  have hout := run_outcome sdk s
  generalize (run sdk s).1 = status at hout ⊢
  generalize (run sdk s).2 = tr at hout ⊢
  cases hout with
  | handshakeFailed =>
    exact ⟨⟨0, _, rfl⟩, by simp, by simp, by simp, by simp, by simp⟩
  | requestFailed v hv =>
    exact ⟨⟨v, _, rfl⟩, fun _ => ⟨false, by simp⟩, by simp, by simp, by simp, by simp⟩
  | priorityFailed v hv =>
    exact ⟨⟨v, _, rfl⟩, fun _ => ⟨true, by simp⟩, fun _ => ⟨false, by simp⟩, by simp,
      by simp, by simp⟩
  | noKeyboard v hv n infos hno hlen hprov =>
    refine ⟨⟨v, _, rfl⟩, fun _ => ⟨true, by simp [upToLoop]⟩,
      fun _ => ⟨true, by simp [upToLoop]⟩,
      fun _ => ⟨n, by simp [upToLoop], Or.inr fun j h0 h1 => ?_⟩, ?_,
      by simp [upToLoop, mem_queries_iff]⟩
    · obtain ⟨d, hd⟩ := queried_all infos n j hlen h0 h1
      exact ⟨d, by simp [upToLoop, hd]⟩
    · rintro ⟨k, hk⟩
      exfalso
      have hk' : Event.CorsairGetDeviceInfo k (some ⟨sdk.CDT_Keyboard⟩) ∈ queries 0 infos := by
        simpa [upToLoop] using hk
      obtain ⟨j, d, hjd, _, _, hd⟩ := mem_queries hk'
      simp only [Event.CorsairGetDeviceInfo.injEq] at hjd
      rw [← hjd.2] at hd
      have := hno _ hd
      simp [isKeyboard] at this
  | setFailed v hv n skipped hno hlt hprov ok out err e =>
    refine ⟨⟨v, _, rfl⟩, fun _ => ⟨true, by simp [upToSet, upToLoop]⟩,
      fun _ => ⟨true, by simp [upToSet, upToLoop]⟩,
      fun _ => ⟨n, by simp [upToSet, upToLoop],
        Or.inl ⟨skipped.length, by simp [query_mem_upToSet, keyboard_query_mem]⟩⟩,
      fun _ => ⟨skipped.length, false, by simp⟩, ?_⟩
    rintro ⟨k, hs⟩
    exfalso
    cases ok <;> simp [upToSet, upToLoop, readEvents, mem_queries_iff] at hs
  | flushFailed v hv n skipped hno hlt hprov ok out err e =>
    refine ⟨⟨v, _, rfl⟩, fun _ => ⟨true, by simp [upToSet, upToLoop]⟩,
      fun _ => ⟨true, by simp [upToSet, upToLoop]⟩,
      fun _ => ⟨n, by simp [upToSet, upToLoop],
        Or.inl ⟨skipped.length, by simp [query_mem_upToSet, keyboard_query_mem]⟩⟩,
      fun _ => ⟨skipped.length, true, by simp⟩,
      fun _ => ⟨false, upToSet sdk v n skipped ok out err ++
        [Event.CorsairSetLedsColorsBufferByDeviceIndex skipped.length 1
           ⟨sdk.CLK_A, 255, 0, 0⟩ true],
        [Event.CorsairGetLastError e, Event.printf "Error setting color: %d\n" [e]],
        by simp, ?_⟩⟩
    cases ok <;>
      simp [upToSet, upToLoop, readEvents, Event.isGetchar, any_queries_isGetchar]
  | completed v hv n skipped hno hlt hprov ok out err ok2 out2 err2 ch sb fl rl =>
    refine ⟨⟨v, _, rfl⟩, fun _ => ⟨true, by simp [upToSet, upToLoop]⟩,
      fun _ => ⟨true, by simp [upToSet, upToLoop]⟩,
      fun _ => ⟨n, by simp [upToSet, upToLoop],
        Or.inl ⟨skipped.length, by simp [query_mem_upToSet, keyboard_query_mem]⟩⟩,
      fun _ => ⟨skipped.length, true, by simp⟩,
      fun _ => ⟨true, upToSet sdk v n skipped ok out err ++
        [Event.CorsairSetLedsColorsBufferByDeviceIndex skipped.length 1
           ⟨sdk.CLK_A, 255, 0, 0⟩ true],
        [Event.printf "Set color command sent.\n" [],
          Event.usleep 3000000,
          Event.printf "\nReading color of 'A' key after setting...\n" []] ++
          readEvents sdk skipped.length ok2 out2 err2 ++
          [Event.printf "\nPress Enter to exit and reset the color.\n" [],
            Event.getchar ch,
            Event.printf "Resetting color and releasing control...\n" [],
            Event.CorsairSetLedsColorsBufferByDeviceIndex skipped.length 1
              ⟨sdk.CLK_A, 0, 0, 0⟩ sb,
            Event.CorsairSetLedsColorsFlushBuffer fl,
            Event.CorsairReleaseControl sdk.CAM_ExclusiveLightingControl rl],
        by simp, ?_⟩⟩
    cases ok <;>
      simp [upToSet, upToLoop, readEvents, Event.isGetchar, any_queries_isGetchar]

set_option maxHeartbeats 4000000 in
/-- Whatever a color read returned, the run goes on to a further step. -/
theorem read_followed_by_step (sdk : CUESDK σ) (s : σ)
    (before : List Event) (e : Event) (later : List Event)
    (hrun : (run sdk s).2 = before ++ e :: later) (hget : e.isLedGet = true) :
    later.any Event.isStep = true := by
  have hout := run_outcome sdk s
  revert before e later
  rw [forall_splits]
  generalize (run sdk s).1 = status at hout ⊢
  generalize (run sdk s).2 = tr at hout ⊢
  cases hout with
  | handshakeFailed =>
    simp only [splits, List.map_cons, List.map_nil, List.forall_mem_cons]
    simp only [Event.isLedGet, Bool.false_eq_true, false_implies, implies_true, and_true,
      true_and]
    simp [Event.isStep]
  | requestFailed v hv =>
    simp only [splits, List.map_cons, List.map_nil, List.forall_mem_cons]
    simp only [Event.isLedGet, Bool.false_eq_true, false_implies, implies_true, and_true,
      true_and]
    simp [Event.isStep]
  | priorityFailed v hv =>
    simp only [splits, List.map_cons, List.map_nil, List.forall_mem_cons]
    simp only [Event.isLedGet, Bool.false_eq_true, false_implies, implies_true, and_true,
      true_and]
    simp [Event.isStep]
  | noKeyboard v hv n infos hno hlen hprov =>
    simp only [upToSet, upToLoop, readEvents, List.cons_append, List.nil_append,
      List.append_assoc, if_true, if_false, Bool.false_eq_true]
    simp only [splits, splits_append, List.map_cons, List.map_nil, List.map_append,
      List.map_map, List.forall_mem_cons, List.forall_mem_append, List.forall_mem_map,
      forall_splits_queries, Function.comp_apply]
    simp only [Event.isLedGet, Bool.false_eq_true, false_implies, implies_true, and_true,
      true_and]
    simp [Event.isStep]
  | setFailed v hv n skipped hno hlt hprov ok out err e =>
    cases ok <;>
    simp only [upToSet, upToLoop, readEvents, List.cons_append, List.nil_append,
      List.append_assoc, if_true, if_false, Bool.false_eq_true] <;>
    simp only [splits, splits_append, List.map_cons, List.map_nil, List.map_append,
      List.map_map, List.forall_mem_cons, List.forall_mem_append, List.forall_mem_map,
      forall_splits_queries, Function.comp_apply] <;>
    simp only [Event.isLedGet, Bool.false_eq_true, false_implies, implies_true, and_true,
      true_and] <;>
    simp [Event.isStep]
  | flushFailed v hv n skipped hno hlt hprov ok out err e =>
    cases ok <;>
    simp only [upToSet, upToLoop, readEvents, List.cons_append, List.nil_append,
      List.append_assoc, if_true, if_false, Bool.false_eq_true] <;>
    simp only [splits, splits_append, List.map_cons, List.map_nil, List.map_append,
      List.map_map, List.forall_mem_cons, List.forall_mem_append, List.forall_mem_map,
      forall_splits_queries, Function.comp_apply] <;>
    simp only [Event.isLedGet, Bool.false_eq_true, false_implies, implies_true, and_true,
      true_and] <;>
    simp [Event.isStep]
  | completed v hv n skipped hno hlt hprov ok out err ok2 out2 err2 ch sb fl rl =>
    cases ok <;> cases ok2 <;>
    simp only [upToSet, upToLoop, readEvents, List.cons_append, List.nil_append,
      List.append_assoc, if_true, if_false, Bool.false_eq_true] <;>
    simp only [splits, splits_append, List.map_cons, List.map_nil, List.map_append,
      List.map_map, List.forall_mem_cons, List.forall_mem_append, List.forall_mem_map,
      forall_splits_queries, Function.comp_apply] <;>
    simp only [Event.isLedGet, Bool.false_eq_true, false_implies, implies_true, and_true,
      true_and] <;>
    simp [Event.isStep]


/-! ## C1 -/

/-- C1. Keyboard selection is a first-match linear search.  For every SDK whose
`CorsairGetDeviceInfo` answers from a table `info` and every device count `n`:
if some index in `[0, n)` is a keyboard, then there is a least such index `k`,
the loop of `main` returns `k`, and every run that counted `n` devices asked for
exactly the device infos of the indices `0..k`; if none is (in particular when
`n ≤ 0`), the loop returns `-1`, and every run that counted `n` devices exits
with status 1, ends by printing "Could not find a Corsair keyboard." and makes
no LED get or set call. -/
theorem C1_first_match_search (sdk : CUESDK σ) (info : Int → Option CorsairDeviceInfo)
    (htable : ∀ i st, (sdk.CorsairGetDeviceInfo i st).1 = info i) (n : Int) :
    ((∃ i, 0 ≤ i ∧ i < n ∧ isKeyboard sdk (info i) = true) →
      ∃ k, 0 ≤ k ∧ k < n ∧ isKeyboard sdk (info k) = true ∧
        (∀ j, 0 ≤ j → j < k → isKeyboard sdk (info j) = false) ∧
        (∀ w : World σ, (main_for sdk n 0 w).1 = k) ∧
        ∀ s, Event.CorsairGetDeviceCount n ∈ (run sdk s).2 →
          ∀ j d, Event.CorsairGetDeviceInfo j d ∈ (run sdk s).2 ↔
            (0 ≤ j ∧ j ≤ k ∧ d = info j)) ∧
    ((¬ ∃ i, 0 ≤ i ∧ i < n ∧ isKeyboard sdk (info i) = true) →
      (∀ w : World σ, (main_for sdk n 0 w).1 = -1) ∧
      ∀ s, Event.CorsairGetDeviceCount n ∈ (run sdk s).2 →
        (run sdk s).1 = 1 ∧
        (run sdk s).2.getLast? =
          some (Event.printf "Could not find a Corsair keyboard.\n" []) ∧
        ∀ e ∈ (run sdk s).2, e.isLedGet = false ∧ e.isLedSet = false) := by
  refine ⟨?_, ?_⟩
  · intro hex
    obtain ⟨k, hk0, hkn, hkb, hleast⟩ := least_keyboard sdk info n hex
    refine ⟨k, hk0, hkn, hkb, hleast, ?_, ?_⟩
    · intro w
      rcases main_for_table sdk info htable n _ 0 w rfl (le_refl 0) with
        ⟨_, h2⟩ | ⟨h1, h2, h3, h4⟩
      · rw [h2 k hk0 hkn] at hkb
        exact absurd hkb (by simp)
      · rcases lt_trichotomy (main_for sdk n 0 w).1 k with h | h | h
        · rw [hleast _ h1 h] at h3
          exact absurd h3 (by simp)
        · exact h
        · rw [h4 k hk0 h] at hkb
          exact absurd hkb (by simp)
    · intro s
      have hout := run_outcome sdk s
      generalize (run sdk s).1 = status at hout ⊢
      generalize (run sdk s).2 = tr at hout ⊢
      cases hout with
      | handshakeFailed => simp
      | requestFailed v hv => simp
      | priorityFailed v hv => simp
      | noKeyboard v hv n' infos hno' hlen hprov =>
        intro hmem
        exfalso
        have hn : n' = n := by
          have : n = n' := by simpa [upToLoop, mem_queries_iff] using hmem
          exact this.symm
        subst hn
        have hidx : k.toNat < infos.length := by omega
        obtain ⟨st, hst⟩ := hprov k.toNat infos[k.toNat]
          ((mem_queries_iff _ _ _).2 ⟨k.toNat, _, List.getElem?_eq_getElem hidx, by simp⟩)
        rw [htable, Int.toNat_of_nonneg hk0] at hst
        have := hno' _ (List.getElem_mem hidx)
        rw [← hst, hkb] at this
        exact absurd this (by simp)
      | setFailed v hv n' skipped hno' hlt hprov ok out err e =>
        intro _ j d
        rw [← (found_queries_table sdk info htable skipped hno' hprov k hk0 hkb hleast).2 j d]
        simp [query_mem_upToSet]
      | flushFailed v hv n' skipped hno' hlt hprov ok out err e =>
        intro _ j d
        rw [← (found_queries_table sdk info htable skipped hno' hprov k hk0 hkb hleast).2 j d]
        simp [query_mem_upToSet]
      | completed v hv n' skipped hno' hlt hprov ok out err ok2 out2 err2 ch sb fl rl =>
        intro _ j d
        rw [← (found_queries_table sdk info htable skipped hno' hprov k hk0 hkb hleast).2 j d]
        simp [query_mem_upToSet, query_mem_readEvents]
  · intro hnone
    have hno : ∀ j, 0 ≤ j → j < n → isKeyboard sdk (info j) = false := by
      intro j h0 h1
      by_contra hk
      exact hnone ⟨j, h0, h1, by simpa using hk⟩
    refine ⟨?_, ?_⟩
    · intro w
      rcases main_for_table sdk info htable n _ 0 w rfl (le_refl 0) with ⟨h1, _⟩ | ⟨h1, h2, h3, _⟩
      · exact h1
      · rw [hno _ h1 h2] at h3
        exact absurd h3 (by simp)
    · intro s
      have hout := run_outcome sdk s
      generalize (run sdk s).1 = status at hout ⊢
      generalize (run sdk s).2 = tr at hout ⊢
      have found_absurd : ∀ (n' : Int) (skipped : List (Option CorsairDeviceInfo)),
          (skipped.length : Int) < n' →
          (∀ j d, Event.CorsairGetDeviceInfo j d ∈
              queries 0 (skipped ++ [some ⟨sdk.CDT_Keyboard⟩]) →
            ∃ st, (sdk.CorsairGetDeviceInfo j st).1 = d) → n' ≠ n := by
        intro n' skipped hlt hprov hn
        subst hn
        obtain ⟨st, hst⟩ := hprov skipped.length (some ⟨sdk.CDT_Keyboard⟩)
          (keyboard_query_mem sdk skipped)
        rw [htable] at hst
        have := hno skipped.length (by omega) hlt
        rw [hst] at this
        simp [isKeyboard] at this
      cases hout with
      | handshakeFailed => simp
      | requestFailed v hv => simp
      | priorityFailed v hv => simp
      | noKeyboard v hv n' infos hno' hlen hprov =>
        intro _
        refine ⟨rfl, by simp, ?_⟩
        intro e he
        simp only [upToLoop, List.mem_append, List.mem_cons, List.mem_singleton,
          List.not_mem_nil, or_false, mem_queries_iff] at he
        rcases he with ((rfl | rfl | rfl | rfl) | ⟨idx, d, _, rfl⟩) | rfl <;>
          simp [Event.isLedGet, Event.isLedSet]
      | setFailed v hv n' skipped hno' hlt hprov ok out err e =>
        intro hmem
        have hne := found_absurd n' skipped hlt hprov
        cases ok <;>
          simp [upToSet, upToLoop, readEvents, mem_queries_iff] at hmem <;>
          exact absurd hmem.symm hne
      | flushFailed v hv n' skipped hno' hlt hprov ok out err e =>
        intro hmem
        have hne := found_absurd n' skipped hlt hprov
        cases ok <;>
          simp [upToSet, upToLoop, readEvents, mem_queries_iff] at hmem <;>
          exact absurd hmem.symm hne
      | completed v hv n' skipped hno' hlt hprov ok out err ok2 out2 err2 ch sb fl rl =>
        intro hmem
        have hne := found_absurd n' skipped hlt hprov
        cases ok <;> cases ok2 <;>
          simp [upToSet, upToLoop, readEvents, mem_queries_iff] at hmem <;>
          exact absurd hmem.symm hne

/-- C1 at the table of `okAnswers` with three devices. -/
theorem C1_first_match_search_witness :
    (∀ i st, ((tableSDK okAnswers).CorsairGetDeviceInfo i st).1 = okAnswers.deviceInfo i) ∧
    (((∃ i, 0 ≤ i ∧ i < 3 ∧ isKeyboard (tableSDK okAnswers) (okAnswers.deviceInfo i) = true) →
      ∃ k, 0 ≤ k ∧ k < 3 ∧ isKeyboard (tableSDK okAnswers) (okAnswers.deviceInfo k) = true ∧
        (∀ j, 0 ≤ j → j < k →
          isKeyboard (tableSDK okAnswers) (okAnswers.deviceInfo j) = false) ∧
        (∀ w : World Unit, (main_for (tableSDK okAnswers) 3 0 w).1 = k) ∧
        ∀ s, Event.CorsairGetDeviceCount 3 ∈ (run (tableSDK okAnswers) s).2 →
          ∀ j d, Event.CorsairGetDeviceInfo j d ∈ (run (tableSDK okAnswers) s).2 ↔
            (0 ≤ j ∧ j ≤ k ∧ d = okAnswers.deviceInfo j)) ∧
    ((¬ ∃ i, 0 ≤ i ∧ i < 3 ∧ isKeyboard (tableSDK okAnswers) (okAnswers.deviceInfo i) = true) →
      (∀ w : World Unit, (main_for (tableSDK okAnswers) 3 0 w).1 = -1) ∧
      ∀ s, Event.CorsairGetDeviceCount 3 ∈ (run (tableSDK okAnswers) s).2 →
        (run (tableSDK okAnswers) s).1 = 1 ∧
        (run (tableSDK okAnswers) s).2.getLast? =
          some (Event.printf "Could not find a Corsair keyboard.\n" []) ∧
        ∀ e ∈ (run (tableSDK okAnswers) s).2, e.isLedGet = false ∧ e.isLedSet = false)) :=
  ⟨fun _ _ => rfl, C1_first_match_search (tableSDK okAnswers) okAnswers.deviceInfo
    (fun _ _ => rfl) 3⟩


/-! ## C2 -/

/-- C2, as stated, fails: in the run against `readFails` the first color read
reports failure, yet the program carries on with the later steps and exits with
status 0. -/
theorem C2_counterexample_failed_read_is_not_terminal :
    ∃ before e later,
      (run (tableSDK readFails) ()).2 = before ++ e :: later ∧ e.failed = true ∧
        (run (tableSDK readFails) ()).1 = 0 ∧ later.any Event.isStep = true := by
  rw [run_readFails]
  exact ⟨[Event.CorsairPerformProtocolHandshake ⟨4⟩,
      Event.CorsairRequestControl 0 true,
      Event.CorsairSetLayerPriority 128 true,
      Event.CorsairGetDeviceCount 1,
      Event.CorsairGetDeviceInfo 0 (some ⟨2⟩),
      Event.printf "Reading initial color of 'A' key...\n" []],
    Event.CorsairGetLedsColorsByDeviceIndex 0 1 ⟨38, 0, 0, 0⟩ false ⟨38, 0, 0, 0⟩, _, rfl, rfl, rfl,
    rfl⟩

set_option maxHeartbeats 4000000 in
/-- C2, amended. The checked failures are terminal: for every run of `main` and
every call in it that reports failure, other than a color read and made before
the keypress wait (so: the handshake, `CorsairRequestControl`,
`CorsairSetLayerPriority`, and the step-6 set-buffer and flush calls), the
program exits with status 1 and performs no later step of the script; all that
follows the failing call is error reporting (`CorsairGetLastError`, `printf`). -/
theorem C2_checked_failures_terminal (sdk : CUESDK σ) (s : σ)
    (before : List Event) (e : Event) (later : List Event)
    (hrun : (run sdk s).2 = before ++ e :: later) (hfail : e.failed = true)
    (hkind : e.isLedGet = false) (hbefore : before.any Event.isGetchar = false) :
    (run sdk s).1 = 1 ∧ later.any Event.isStep = false := by
  have hout := run_outcome sdk s
  revert before e later
  rw [forall_splits]
  generalize (run sdk s).1 = status at hout ⊢
  generalize (run sdk s).2 = tr at hout ⊢
  cases hout with
  | handshakeFailed =>
    simp only [splits, List.map_cons, List.map_nil, List.forall_mem_cons]
    simp [Event.failed, Event.isStep, Event.isLedGet, Event.isGetchar, any_queries_isGetchar]
  | requestFailed v hv =>
    simp only [splits, List.map_cons, List.map_nil, List.forall_mem_cons]
    simp [Event.failed, Event.isStep, Event.isLedGet, Event.isGetchar, any_queries_isGetchar, hv]
  | priorityFailed v hv =>
    simp only [splits, List.map_cons, List.map_nil, List.forall_mem_cons]
    simp [Event.failed, Event.isStep, Event.isLedGet, Event.isGetchar, any_queries_isGetchar, hv]
  | noKeyboard v hv n infos hno hlen hprov =>
    simp only [upToSet, upToLoop, readEvents, List.cons_append, List.nil_append,
      List.append_assoc, if_true, if_false, Bool.false_eq_true]
    simp only [splits, splits_append, List.map_cons, List.map_nil, List.map_append,
      List.map_map, List.forall_mem_cons, List.forall_mem_append, List.forall_mem_map,
      forall_splits_queries, Function.comp_apply]
    simp [Event.failed, Event.isStep, Event.isLedGet, Event.isGetchar, any_queries_isGetchar, hv]
  | setFailed v hv n skipped hno hlt hprov ok out err e =>
    cases ok <;>
    simp only [upToSet, upToLoop, readEvents, List.cons_append, List.nil_append,
      List.append_assoc, if_true, if_false, Bool.false_eq_true] <;>
    simp only [splits, splits_append, List.map_cons, List.map_nil, List.map_append,
      List.map_map, List.forall_mem_cons, List.forall_mem_append, List.forall_mem_map,
      forall_splits_queries, Function.comp_apply] <;>
    simp [Event.failed, Event.isStep, Event.isLedGet, Event.isGetchar, any_queries_isGetchar, hv]
  | flushFailed v hv n skipped hno hlt hprov ok out err e =>
    cases ok <;>
    simp only [upToSet, upToLoop, readEvents, List.cons_append, List.nil_append,
      List.append_assoc, if_true, if_false, Bool.false_eq_true] <;>
    simp only [splits, splits_append, List.map_cons, List.map_nil, List.map_append,
      List.map_map, List.forall_mem_cons, List.forall_mem_append, List.forall_mem_map,
      forall_splits_queries, Function.comp_apply] <;>
    simp [Event.failed, Event.isStep, Event.isLedGet, Event.isGetchar, any_queries_isGetchar, hv]
  | completed v hv n skipped hno hlt hprov ok out err ok2 out2 err2 ch sb fl rl =>
    cases ok <;> cases ok2 <;>
    simp only [upToSet, upToLoop, readEvents, List.cons_append, List.nil_append,
      List.append_assoc, if_true, if_false, Bool.false_eq_true] <;>
    simp only [splits, splits_append, List.map_cons, List.map_nil, List.map_append,
      List.map_map, List.forall_mem_cons, List.forall_mem_append, List.forall_mem_map,
      forall_splits_queries, Function.comp_apply] <;>
    simp [Event.failed, Event.isStep, Event.isLedGet, Event.isGetchar, any_queries_isGetchar, hv]

/-- C2, amended, at the failing `CorsairSetLayerPriority` call of the run against
`priorityFails`. -/
theorem C2_checked_failures_terminal_witness :
    ((run (tableSDK priorityFails) ()).2 =
        [Event.CorsairPerformProtocolHandshake ⟨4⟩, Event.CorsairRequestControl 0 true] ++
          Event.CorsairSetLayerPriority 128 false ::
            [Event.printf "Error setting layer priority.\n" []]) ∧
    (Event.CorsairSetLayerPriority 128 false).failed = true ∧
    (Event.CorsairSetLayerPriority 128 false).isLedGet = false ∧
    [Event.CorsairPerformProtocolHandshake ⟨4⟩, Event.CorsairRequestControl 0 true].any
      Event.isGetchar = false ∧
    ((run (tableSDK priorityFails) ()).1 = 1 ∧
      [Event.printf "Error setting layer priority.\n" []].any Event.isStep = false) :=
  have h1 : (run (tableSDK priorityFails) ()).2 =
      [Event.CorsairPerformProtocolHandshake ⟨4⟩, Event.CorsairRequestControl 0 true] ++
        Event.CorsairSetLayerPriority 128 false ::
          [Event.printf "Error setting layer priority.\n" []] := by
    rw [run_priorityFails]; rfl
  ⟨h1, rfl, rfl, rfl,
    C2_checked_failures_terminal (tableSDK priorityFails) () _ _ _ h1 rfl rfl rfl⟩

/-! ## C3 -/

/-- C3, as stated, fails: in the run against `handshakeFails` the handshake
answers protocol version 0 and the program never calls `CorsairGetLastError`;
it prints a fixed text without arguments. -/
theorem C3_counterexample_handshake_failure_prints_no_code :
    (run (tableSDK handshakeFails) ()).2 =
        [Event.CorsairPerformProtocolHandshake ⟨0⟩,
         Event.printf "Error: CUE is not running or was not found.\n" []] ∧
      (Event.CorsairPerformProtocolHandshake ⟨0⟩).failed = true ∧
      ∀ x ∈ (run (tableSDK handshakeFails) ()).2, ∀ err, x ≠ Event.CorsairGetLastError err := by
  rw [run_handshakeFails]
  exact ⟨rfl, rfl, by simp⟩

set_option maxHeartbeats 4000000 in
/-- C3, amended. For every run of `main` and every call in it that reports
failure: if it is a color read, or a set-buffer or flush call made before the
keypress wait, the program calls `CorsairGetLastError` right after it and then
prints a `%d` format ("Error getting key color: %d" for a read, "Error setting
color: %d" otherwise) whose argument is the code returned; if it is the
handshake, `CorsairRequestControl` or `CorsairSetLayerPriority`, the program
does not ask for the error code and only prints a fixed text without
arguments. -/
theorem C3_error_code_reported (sdk : CUESDK σ) (s : σ)
    (before : List Event) (e : Event) (later : List Event)
    (hrun : (run sdk s).2 = before ++ e :: later) (hfail : e.failed = true) :
    ((e.isLedGet = true ∨
        ((e.isLedSet = true ∨ e.isFlush = true) ∧ before.any Event.isGetchar = false)) →
      ∃ err rest,
        later = Event.CorsairGetLastError err ::
          Event.printf (if e.isLedGet = true then "Error getting key color: %d\n"
            else "Error setting color: %d\n") [err] :: rest) ∧
    (e.isSetupCall = true → ∃ text, later = [Event.printf text []]) := by
  have hout := run_outcome sdk s
  revert before e later
  rw [forall_splits]
  generalize (run sdk s).1 = status at hout ⊢
  generalize (run sdk s).2 = tr at hout ⊢
  cases hout with
  | handshakeFailed =>
    simp only [splits, List.map_cons, List.map_nil, List.forall_mem_cons]
    simp [Event.failed, Event.isLedSet, Event.isLedGet, Event.isFlush, Event.isGetchar,
      Event.isSetupCall]
  | requestFailed v hv =>
    simp only [splits, List.map_cons, List.map_nil, List.forall_mem_cons]
    simp only [Event.failed, hv, decide_False, decide_True, Bool.not_true, Bool.not_false,
      Bool.false_eq_true, false_implies, implies_true, and_true, true_and]
    simp [Event.isLedSet, Event.isLedGet, Event.isFlush, Event.isGetchar,
      Event.isSetupCall, any_queries_isGetchar]
  | priorityFailed v hv =>
    simp only [splits, List.map_cons, List.map_nil, List.forall_mem_cons]
    simp only [Event.failed, hv, decide_False, decide_True, Bool.not_true, Bool.not_false,
      Bool.false_eq_true, false_implies, implies_true, and_true, true_and]
    simp [Event.isLedSet, Event.isLedGet, Event.isFlush, Event.isGetchar,
      Event.isSetupCall, any_queries_isGetchar]
  | noKeyboard v hv n infos hno hlen hprov =>
    simp only [upToSet, upToLoop, readEvents, List.cons_append, List.nil_append,
      List.append_assoc, if_true, if_false, Bool.false_eq_true]
    simp only [splits, splits_append, List.map_cons, List.map_nil, List.map_append,
      List.map_map, List.forall_mem_cons, List.forall_mem_append, List.forall_mem_map,
      forall_splits_queries, Function.comp_apply]
    simp only [Event.failed, hv, decide_False, decide_True, Bool.not_true, Bool.not_false,
      Bool.false_eq_true, false_implies, implies_true, and_true, true_and]
    simp [Event.isLedSet, Event.isLedGet, Event.isFlush, Event.isGetchar,
      Event.isSetupCall, any_queries_isGetchar]
  | setFailed v hv n skipped hno hlt hprov ok out err e =>
    cases ok <;>
    simp only [upToSet, upToLoop, readEvents, List.cons_append, List.nil_append,
      List.append_assoc, if_true, if_false, Bool.false_eq_true] <;>
    simp only [splits, splits_append, List.map_cons, List.map_nil, List.map_append,
      List.map_map, List.forall_mem_cons, List.forall_mem_append, List.forall_mem_map,
      forall_splits_queries, Function.comp_apply] <;>
    simp only [Event.failed, hv, decide_False, decide_True, Bool.not_true, Bool.not_false,
      Bool.false_eq_true, false_implies, implies_true, and_true, true_and] <;>
    simp [Event.isLedSet, Event.isLedGet, Event.isFlush, Event.isGetchar,
      Event.isSetupCall, any_queries_isGetchar]
  | flushFailed v hv n skipped hno hlt hprov ok out err e =>
    cases ok <;>
    simp only [upToSet, upToLoop, readEvents, List.cons_append, List.nil_append,
      List.append_assoc, if_true, if_false, Bool.false_eq_true] <;>
    simp only [splits, splits_append, List.map_cons, List.map_nil, List.map_append,
      List.map_map, List.forall_mem_cons, List.forall_mem_append, List.forall_mem_map,
      forall_splits_queries, Function.comp_apply] <;>
    simp only [Event.failed, hv, decide_False, decide_True, Bool.not_true, Bool.not_false,
      Bool.false_eq_true, false_implies, implies_true, and_true, true_and] <;>
    simp [Event.isLedSet, Event.isLedGet, Event.isFlush, Event.isGetchar,
      Event.isSetupCall, any_queries_isGetchar]
  | completed v hv n skipped hno hlt hprov ok out err ok2 out2 err2 ch sb fl rl =>
    cases ok <;> cases ok2 <;>
    simp only [upToSet, upToLoop, readEvents, List.cons_append, List.nil_append,
      List.append_assoc, if_true, if_false, Bool.false_eq_true] <;>
    simp only [splits, splits_append, List.map_cons, List.map_nil, List.map_append,
      List.map_map, List.forall_mem_cons, List.forall_mem_append, List.forall_mem_map,
      forall_splits_queries, Function.comp_apply] <;>
    simp only [Event.failed, hv, decide_False, decide_True, Bool.not_true, Bool.not_false,
      Bool.false_eq_true, false_implies, implies_true, and_true, true_and] <;>
    simp [Event.isLedSet, Event.isLedGet, Event.isFlush, Event.isGetchar,
      Event.isSetupCall, any_queries_isGetchar]

/-- C3, amended, at the failing buffer write of the run against `setFails`: error
code 7 is fetched and printed. -/
theorem C3_error_code_reported_witness :
    ((run (tableSDK setFails) ()).2 =
        [Event.CorsairPerformProtocolHandshake ⟨4⟩,
         Event.CorsairRequestControl 0 true,
         Event.CorsairSetLayerPriority 128 true,
         Event.CorsairGetDeviceCount 1,
         Event.CorsairGetDeviceInfo 0 (some ⟨2⟩),
         Event.printf "Reading initial color of 'A' key...\n" [],
         Event.CorsairGetLedsColorsByDeviceIndex 0 1 ⟨38, 0, 0, 0⟩ true ⟨38, 10, 20, 30⟩,
         Event.printf "dKey %d color is: R=%d, G=%d, B=%d\n" [38, 10, 20, 30],
         Event.printf "\nSetting the 'A' key to red...\n" []] ++
        Event.CorsairSetLedsColorsBufferByDeviceIndex 0 1 ⟨38, 255, 0, 0⟩ false ::
          [Event.CorsairGetLastError 7, Event.printf "Error setting color: %d\n" [7]]) ∧
    (Event.CorsairSetLedsColorsBufferByDeviceIndex 0 1 ⟨38, 255, 0, 0⟩ false).failed = true ∧
    ∃ err rest,
      [Event.CorsairGetLastError 7, Event.printf "Error setting color: %d\n" [7]] =
        Event.CorsairGetLastError err :: Event.printf "Error setting color: %d\n" [err] :: rest :=
  have h1 : (run (tableSDK setFails) ()).2 =
      [Event.CorsairPerformProtocolHandshake ⟨4⟩,
       Event.CorsairRequestControl 0 true,
       Event.CorsairSetLayerPriority 128 true,
       Event.CorsairGetDeviceCount 1,
       Event.CorsairGetDeviceInfo 0 (some ⟨2⟩),
       Event.printf "Reading initial color of 'A' key...\n" [],
       Event.CorsairGetLedsColorsByDeviceIndex 0 1 ⟨38, 0, 0, 0⟩ true ⟨38, 10, 20, 30⟩,
       Event.printf "dKey %d color is: R=%d, G=%d, B=%d\n" [38, 10, 20, 30],
       Event.printf "\nSetting the 'A' key to red...\n" []] ++
      Event.CorsairSetLedsColorsBufferByDeviceIndex 0 1 ⟨38, 255, 0, 0⟩ false ::
        [Event.CorsairGetLastError 7, Event.printf "Error setting color: %d\n" [7]] := by
    rw [run_setFails]; rfl
  ⟨h1, rfl,
    (C3_error_code_reported (tableSDK setFails) () _ _ _ h1 rfl).1
      (Or.inr ⟨Or.inl rfl, rfl⟩)⟩


/-! ## C4 -/

/-- C4, as stated, fails: in the run against `priorityFails` the request for
exclusive lighting control succeeds, `CorsairSetLayerPriority` then fails, and
the program exits with status 1 without ever calling `CorsairReleaseControl`. -/
theorem C4_counterexample_priority_failure_skips_release :
    (run (tableSDK priorityFails) ()).1 = 1 ∧
      Event.CorsairRequestControl (tableSDK priorityFails).CAM_ExclusiveLightingControl true ∈
        (run (tableSDK priorityFails) ()).2 ∧
      (run (tableSDK priorityFails) ()).2.any Event.isRelease = false := by
  rw [run_priorityFails]
  refine ⟨rfl, ?_, rfl⟩
  simp [tableSDK]

/-- C4, amended. Control is released on the normal exit only.  For every run of
`main` in which `CorsairRequestControl` succeeded: if the run exits with
status 0, then its last call is `CorsairReleaseControl` of the exclusive
lighting control, it comes after the successful request, and no release
precedes it, whatever the color reads and the step-8 buffer write and flush
returned; if the run exits with status 1 (an error exit of steps 3, 4 or 6),
then it makes no `CorsairReleaseControl` call at all. -/
theorem C4_release_on_normal_exit_only (sdk : CUESDK σ) (s : σ)
    (hreq : Event.CorsairRequestControl sdk.CAM_ExclusiveLightingControl true ∈
      (run sdk s).2) :
    ((run sdk s).1 = 0 →
      ∃ before rl,
        (run sdk s).2 =
          before ++ [Event.CorsairReleaseControl sdk.CAM_ExclusiveLightingControl rl] ∧
        Event.CorsairRequestControl sdk.CAM_ExclusiveLightingControl true ∈ before ∧
        before.any Event.isRelease = false) ∧
    ((run sdk s).1 = 1 → (run sdk s).2.any Event.isRelease = false) := by
  have hout := run_outcome sdk s
  generalize (run sdk s).1 = status at hout ⊢
  generalize (run sdk s).2 = tr at hout hreq ⊢
  cases hout with
  | handshakeFailed => simp at hreq
  | requestFailed v hv => simp at hreq
  | priorityFailed v hv => simp [Event.isRelease]
  | noKeyboard v hv n infos hno hlen hprov =>
    simp [upToLoop, Event.isRelease, any_queries_isRelease]
  | setFailed v hv n skipped hno hlt hprov ok out err e =>
    cases ok <;>
      simp [upToSet, upToLoop, readEvents, Event.isRelease, any_queries_isRelease]
  | flushFailed v hv n skipped hno hlt hprov ok out err e =>
    cases ok <;>
      simp [upToSet, upToLoop, readEvents, Event.isRelease, any_queries_isRelease]
  | completed v hv n skipped hno hlt hprov ok out err ok2 out2 err2 ch sb fl rl =>
    refine ⟨fun _ => ⟨upToSet sdk v n skipped ok out err ++
      [Event.CorsairSetLedsColorsBufferByDeviceIndex skipped.length 1
         ⟨sdk.CLK_A, 255, 0, 0⟩ true,
       Event.CorsairSetLedsColorsFlushBuffer true,
       Event.printf "Set color command sent.\n" [],
       Event.usleep 3000000,
       Event.printf "\nReading color of 'A' key after setting...\n" []] ++
      readEvents sdk skipped.length ok2 out2 err2 ++
      [Event.printf "\nPress Enter to exit and reset the color.\n" [],
       Event.getchar ch,
       Event.printf "Resetting color and releasing control...\n" [],
       Event.CorsairSetLedsColorsBufferByDeviceIndex skipped.length 1
         ⟨sdk.CLK_A, 0, 0, 0⟩ sb,
       Event.CorsairSetLedsColorsFlushBuffer fl], rl, by simp, by simp [upToSet, upToLoop],
      ?_⟩, fun h => absurd h (by decide)⟩
    cases ok <;> cases ok2 <;>
      simp [upToSet, upToLoop, readEvents, Event.isRelease, any_queries_isRelease]

/-- C4, amended, at the run against `readFails`: both color reads fail, the run
still exits with status 0 and releases control last. -/
theorem C4_release_on_normal_exit_only_witness :
    Event.CorsairRequestControl (tableSDK readFails).CAM_ExclusiveLightingControl true ∈
      (run (tableSDK readFails) ()).2 ∧
    (run (tableSDK readFails) ()).1 = 0 ∧
    ∃ before rl,
      (run (tableSDK readFails) ()).2 =
        before ++
          [Event.CorsairReleaseControl (tableSDK readFails).CAM_ExclusiveLightingControl rl] ∧
      Event.CorsairRequestControl (tableSDK readFails).CAM_ExclusiveLightingControl true ∈
        before ∧
      before.any Event.isRelease = false :=
  have h1 : Event.CorsairRequestControl (tableSDK readFails).CAM_ExclusiveLightingControl
      true ∈ (run (tableSDK readFails) ()).2 := by
    rw [run_readFails]; simp [tableSDK]
  have h2 : (run (tableSDK readFails) ()).1 = 0 := by
    rw [run_readFails]
  ⟨h1, h2, (C4_release_on_normal_exit_only (tableSDK readFails) () h1).1 h2⟩


/-! ## C5 -/

/-- C5. On a run where every SDK call succeeds and the keyboard is found at
index `k`, the exit status is 0 and the trace without the `printf` calls is
exactly the fixed script: handshake; request exclusive control; set layer
priority 128; device count; device infos 0..k; read CLK_A on device k; buffer
(CLK_A,255,0,0) on device k; flush; sleep; read CLK_A on device k; `getchar`;
buffer (CLK_A,0,0,0) on device k; flush; release exclusive control. -/
theorem C5_success_script (sdk : CUESDK σ) (s : σ) (k : Int)
    (hok : ∀ e ∈ (run sdk s).2, e.failed = false)
    (hkb : Event.CorsairGetDeviceInfo k (some ⟨sdk.CDT_Keyboard⟩) ∈ (run sdk s).2) :
    (run sdk s).1 = 0 ∧
    ∃ (v n : Int) (skipped : List (Option CorsairDeviceInfo)) (c1 c2 : CorsairLedColor)
        (ch : Int),
      v ≠ 0 ∧ (skipped.length : Int) = k ∧ k < n ∧
      (∀ d ∈ skipped, isKeyboard sdk d = false) ∧
      (run sdk s).2.filter (fun e => !e.isPrintf) =
        [Event.CorsairPerformProtocolHandshake ⟨v⟩,
         Event.CorsairRequestControl sdk.CAM_ExclusiveLightingControl true,
         Event.CorsairSetLayerPriority 128 true,
         Event.CorsairGetDeviceCount n] ++
        queries 0 (skipped ++ [some ⟨sdk.CDT_Keyboard⟩]) ++
        [Event.CorsairGetLedsColorsByDeviceIndex k 1 ⟨sdk.CLK_A, 0, 0, 0⟩ true c1,
         Event.CorsairSetLedsColorsBufferByDeviceIndex k 1 ⟨sdk.CLK_A, 255, 0, 0⟩ true,
         Event.CorsairSetLedsColorsFlushBuffer true,
         Event.usleep 3000000,
         Event.CorsairGetLedsColorsByDeviceIndex k 1 ⟨sdk.CLK_A, 0, 0, 0⟩ true c2,
         Event.getchar ch,
         Event.CorsairSetLedsColorsBufferByDeviceIndex k 1 ⟨sdk.CLK_A, 0, 0, 0⟩ true,
         Event.CorsairSetLedsColorsFlushBuffer true,
         Event.CorsairReleaseControl sdk.CAM_ExclusiveLightingControl true] := by
  have hout := run_outcome sdk s
  generalize (run sdk s).1 = status at hout ⊢
  generalize (run sdk s).2 = tr at hout hok hkb ⊢
  cases hout with
  | handshakeFailed => simp [Event.failed] at hok
  | requestFailed v hv => simp [Event.failed] at hok
  | priorityFailed v hv => simp [Event.failed] at hok
  | noKeyboard v hv n infos hno hlen hprov =>
    exfalso
    simp only [upToLoop, List.mem_append, List.mem_cons, List.mem_singleton,
      List.not_mem_nil, or_false, reduceCtorEq, false_or] at hkb
    obtain ⟨j, d, hjd, _, _, hd⟩ := mem_queries hkb
    simp only [Event.CorsairGetDeviceInfo.injEq] at hjd
    rw [← hjd.2] at hd
    have := hno _ hd
    simp [isKeyboard] at this
  | setFailed v hv n skipped hno hlt hprov ok out err e =>
    have := hok (Event.CorsairSetLedsColorsBufferByDeviceIndex skipped.length 1
      ⟨sdk.CLK_A, 255, 0, 0⟩ false) (by simp)
    simp [Event.failed] at this
  | flushFailed v hv n skipped hno hlt hprov ok out err e =>
    have := hok (Event.CorsairSetLedsColorsFlushBuffer false) (by simp)
    simp [Event.failed] at this
  | completed v hv n skipped hno hlt hprov ok out err ok2 out2 err2 ch sb fl rl =>
    have hk : k = skipped.length := by
      apply keyboard_query_unique sdk skipped hno k (some ⟨sdk.CDT_Keyboard⟩) _ (by simp [isKeyboard])
      cases ok <;> cases ok2 <;>
        simpa [upToSet, upToLoop, readEvents, mem_queries_iff] using hkb
    subst hk
    have hq := filter_queries (fun e => !e.isPrintf) (by simp [Event.isPrintf]) 0
      (skipped ++ [some ⟨sdk.CDT_Keyboard⟩])
    have h1 : ok = true := by
      have := hok (Event.CorsairGetLedsColorsByDeviceIndex skipped.length 1
        ⟨sdk.CLK_A, 0, 0, 0⟩ ok out) (by simp [upToSet, readEvents])
      simpa [Event.failed] using this
    have h2 : ok2 = true := by
      have := hok (Event.CorsairGetLedsColorsByDeviceIndex skipped.length 1
        ⟨sdk.CLK_A, 0, 0, 0⟩ ok2 out2) (by simp [readEvents])
      simpa [Event.failed] using this
    have h3 : sb = true := by
      have := hok (Event.CorsairSetLedsColorsBufferByDeviceIndex skipped.length 1
        ⟨sdk.CLK_A, 0, 0, 0⟩ sb) (by simp)
      simpa [Event.failed] using this
    have h4 : fl = true := by
      have := hok (Event.CorsairSetLedsColorsFlushBuffer fl) (by simp)
      simpa [Event.failed] using this
    have h5 : rl = true := by
      have := hok (Event.CorsairReleaseControl sdk.CAM_ExclusiveLightingControl rl) (by simp)
      simpa [Event.failed] using this
    subst h1 h2 h3 h4 h5
    refine ⟨rfl, v, n, skipped, out, out2, ch, hv, rfl, hlt, hno, ?_⟩
    simp only [upToSet, upToLoop, readEvents, List.filter_append, hq, if_true]
    simp [Event.isPrintf]

/-- C5 at the run against `okAnswers`, keyboard at index 2. -/
theorem C5_success_script_witness :
    (∀ e ∈ (run (tableSDK okAnswers) ()).2, e.failed = false) ∧
    Event.CorsairGetDeviceInfo 2 (some ⟨(tableSDK okAnswers).CDT_Keyboard⟩) ∈
      (run (tableSDK okAnswers) ()).2 ∧
    ((run (tableSDK okAnswers) ()).1 = 0 ∧
    ∃ (v n : Int) (skipped : List (Option CorsairDeviceInfo)) (c1 c2 : CorsairLedColor)
        (ch : Int),
      v ≠ 0 ∧ (skipped.length : Int) = 2 ∧ 2 < n ∧
      (∀ d ∈ skipped, isKeyboard (tableSDK okAnswers) d = false) ∧
      (run (tableSDK okAnswers) ()).2.filter (fun e => !e.isPrintf) =
        [Event.CorsairPerformProtocolHandshake ⟨v⟩,
         Event.CorsairRequestControl (tableSDK okAnswers).CAM_ExclusiveLightingControl true,
         Event.CorsairSetLayerPriority 128 true,
         Event.CorsairGetDeviceCount n] ++
        queries 0 (skipped ++ [some ⟨(tableSDK okAnswers).CDT_Keyboard⟩]) ++
        [Event.CorsairGetLedsColorsByDeviceIndex 2 1 ⟨(tableSDK okAnswers).CLK_A, 0, 0, 0⟩
           true c1,
         Event.CorsairSetLedsColorsBufferByDeviceIndex 2 1
           ⟨(tableSDK okAnswers).CLK_A, 255, 0, 0⟩ true,
         Event.CorsairSetLedsColorsFlushBuffer true,
         Event.usleep 3000000,
         Event.CorsairGetLedsColorsByDeviceIndex 2 1 ⟨(tableSDK okAnswers).CLK_A, 0, 0, 0⟩
           true c2,
         Event.getchar ch,
         Event.CorsairSetLedsColorsBufferByDeviceIndex 2 1
           ⟨(tableSDK okAnswers).CLK_A, 0, 0, 0⟩ true,
         Event.CorsairSetLedsColorsFlushBuffer true,
         Event.CorsairReleaseControl (tableSDK okAnswers).CAM_ExclusiveLightingControl true]) :=
  have h1 : ∀ e ∈ (run (tableSDK okAnswers) ()).2, e.failed = false := by
    rw [run_okAnswers]; simp [Event.failed]
  have h2 : Event.CorsairGetDeviceInfo 2 (some ⟨(tableSDK okAnswers).CDT_Keyboard⟩) ∈
      (run (tableSDK okAnswers) ()).2 := by
    rw [run_okAnswers]; simp [tableSDK]
  ⟨h1, h2, C5_success_script (tableSDK okAnswers) () 2 h1 h2⟩


/-! ## C6 -/

/-- C6. On every run that reaches step 7 (it announces the second read) exactly
one sleep occurs; it comes after the successful buffer-and-flush of red and
before the second `CorsairGetLedsColorsByDeviceIndex` call (exactly one such
call precedes it); and its argument is 3000000 microseconds, that is
`3 * 10 ^ 6`, whatever the SDK answered. -/
theorem C6_fixed_three_second_pause (sdk : CUESDK σ) (s : σ)
    (hreach : Event.printf "\nReading color of 'A' key after setting...\n" [] ∈
      (run sdk s).2) :
    (run sdk s).2.countP Event.isUsleep = 1 ∧
    (∃ before later k ok out,
      (run sdk s).2 =
        before ++
          [Event.CorsairSetLedsColorsBufferByDeviceIndex k 1 ⟨sdk.CLK_A, 255, 0, 0⟩ true,
           Event.CorsairSetLedsColorsFlushBuffer true,
           Event.printf "Set color command sent.\n" [],
           Event.usleep 3000000,
           Event.printf "\nReading color of 'A' key after setting...\n" [],
           Event.CorsairGetLedsColorsByDeviceIndex k 1 ⟨sdk.CLK_A, 0, 0, 0⟩ ok out] ++
          later ∧
      before.countP Event.isLedGet = 1 ∧ later.countP Event.isLedGet = 0) ∧
    (3000000 : Int) = 3 * 10 ^ 6 := by
  have hout := run_outcome sdk s
  generalize (run sdk s).1 = status at hout ⊢
  generalize (run sdk s).2 = tr at hout hreach ⊢
  have hqu := fun i infos =>
    countP_queries Event.isUsleep (by simp [Event.isUsleep]) i infos
  have hqg := fun i infos =>
    countP_queries Event.isLedGet (by simp [Event.isLedGet]) i infos
  cases hout with
  | handshakeFailed => simp at hreach
  | requestFailed v hv => simp at hreach
  | priorityFailed v hv => simp at hreach
  | noKeyboard v hv n infos hno hlen hprov =>
    simp [upToLoop, mem_queries_iff] at hreach
  | setFailed v hv n skipped hno hlt hprov ok out err e =>
    cases ok <;> simp [upToSet, upToLoop, readEvents, mem_queries_iff] at hreach
  | flushFailed v hv n skipped hno hlt hprov ok out err e =>
    cases ok <;> simp [upToSet, upToLoop, readEvents, mem_queries_iff] at hreach
  | completed v hv n skipped hno hlt hprov ok out err ok2 out2 err2 ch sb fl rl =>
    refine ⟨?_, ⟨upToSet sdk v n skipped ok out err,
      (if ok2 then
        [Event.printf "dKey %d color is: R=%d, G=%d, B=%d\n"
          [sdk.CLK_A, out2.r, out2.g, out2.b]]
      else
        [Event.CorsairGetLastError err2, Event.printf "Error getting key color: %d\n" [err2]]) ++
      [Event.printf "\nPress Enter to exit and reset the color.\n" [],
        Event.getchar ch,
        Event.printf "Resetting color and releasing control...\n" [],
        Event.CorsairSetLedsColorsBufferByDeviceIndex skipped.length 1
          ⟨sdk.CLK_A, 0, 0, 0⟩ sb,
        Event.CorsairSetLedsColorsFlushBuffer fl,
        Event.CorsairReleaseControl sdk.CAM_ExclusiveLightingControl rl],
      skipped.length, ok2, out2, ?_, ?_, ?_⟩, by norm_num⟩
    · cases ok <;> cases ok2 <;>
        simp [upToSet, upToLoop, readEvents, List.countP_append, List.countP_cons, hqu,
          Event.isUsleep]
    · simp [readEvents]
    · cases ok <;>
        simp [upToSet, upToLoop, readEvents, List.countP_append, List.countP_cons, hqg,
          Event.isLedGet]
    · cases ok2 <;> simp [List.countP_cons, Event.isLedGet]

/-- C6 at the run against `okAnswers`. -/
theorem C6_fixed_three_second_pause_witness :
    Event.printf "\nReading color of 'A' key after setting...\n" [] ∈
      (run (tableSDK okAnswers) ()).2 ∧
    ((run (tableSDK okAnswers) ()).2.countP Event.isUsleep = 1 ∧
    (∃ before later k ok out,
      (run (tableSDK okAnswers) ()).2 =
        before ++
          [Event.CorsairSetLedsColorsBufferByDeviceIndex k 1
             ⟨(tableSDK okAnswers).CLK_A, 255, 0, 0⟩ true,
           Event.CorsairSetLedsColorsFlushBuffer true,
           Event.printf "Set color command sent.\n" [],
           Event.usleep 3000000,
           Event.printf "\nReading color of 'A' key after setting...\n" [],
           Event.CorsairGetLedsColorsByDeviceIndex k 1
             ⟨(tableSDK okAnswers).CLK_A, 0, 0, 0⟩ ok out] ++
          later ∧
      before.countP Event.isLedGet = 1 ∧ later.countP Event.isLedGet = 0) ∧
    (3000000 : Int) = 3 * 10 ^ 6) :=
  have h1 : Event.printf "\nReading color of 'A' key after setting...\n" [] ∈
      (run (tableSDK okAnswers) ()).2 := by
    rw [run_okAnswers]; simp
  ⟨h1, C6_fixed_three_second_pause (tableSDK okAnswers) () h1⟩


/-! ## C7 -/

/-- C7. On every run that reaches step 8 (it announces the reset) the trace
ends with: `getchar` returning, the announcement, the buffer write of
(CLK_A, 0, 0, 0), the flush, and the release of exclusive control; and nothing
before that `getchar` is a `getchar`, a release of control or a write of a black
record.  The record does not depend on what the two reads returned. -/
theorem C7_reset_after_keypress (sdk : CUESDK σ) (s : σ)
    (hreach : Event.printf "Resetting color and releasing control...\n" [] ∈ (run sdk s).2) :
    ∃ before ch k sb fl rl,
      (run sdk s).2 =
        before ++
          [Event.getchar ch,
           Event.printf "Resetting color and releasing control...\n" [],
           Event.CorsairSetLedsColorsBufferByDeviceIndex k 1 ⟨sdk.CLK_A, 0, 0, 0⟩ sb,
           Event.CorsairSetLedsColorsFlushBuffer fl,
           Event.CorsairReleaseControl sdk.CAM_ExclusiveLightingControl rl] ∧
      before.any Event.isGetchar = false ∧ before.any Event.isRelease = false ∧
        before.any Event.isBlackWrite = false := by
  have hout := run_outcome sdk s
  generalize (run sdk s).1 = status at hout ⊢
  generalize (run sdk s).2 = tr at hout hreach ⊢
  cases hout with
  | handshakeFailed => simp at hreach
  | requestFailed v hv => simp at hreach
  | priorityFailed v hv => simp at hreach
  | noKeyboard v hv n infos hno hlen hprov =>
    simp [upToLoop, mem_queries_iff] at hreach
  | setFailed v hv n skipped hno hlt hprov ok out err e =>
    cases ok <;> simp [upToSet, upToLoop, readEvents, mem_queries_iff] at hreach
  | flushFailed v hv n skipped hno hlt hprov ok out err e =>
    cases ok <;> simp [upToSet, upToLoop, readEvents, mem_queries_iff] at hreach
  | completed v hv n skipped hno hlt hprov ok out err ok2 out2 err2 ch sb fl rl =>
    refine ⟨upToSet sdk v n skipped ok out err ++
      [Event.CorsairSetLedsColorsBufferByDeviceIndex skipped.length 1
         ⟨sdk.CLK_A, 255, 0, 0⟩ true,
       Event.CorsairSetLedsColorsFlushBuffer true,
       Event.printf "Set color command sent.\n" [],
       Event.usleep 3000000,
       Event.printf "\nReading color of 'A' key after setting...\n" []] ++
      readEvents sdk skipped.length ok2 out2 err2 ++
      [Event.printf "\nPress Enter to exit and reset the color.\n" []],
      ch, skipped.length, sb, fl, rl, by simp, ?_⟩
    cases ok <;> cases ok2 <;>
      simp [upToSet, upToLoop, readEvents, Event.isGetchar, Event.isRelease,
        Event.isBlackWrite, any_queries_isGetchar, any_queries_isRelease,
        any_queries_isBlackWrite]

/-- C7 at the run against `okAnswers`. -/
theorem C7_reset_after_keypress_witness :
    Event.printf "Resetting color and releasing control...\n" [] ∈
      (run (tableSDK okAnswers) ()).2 ∧
    ∃ before ch k sb fl rl,
      (run (tableSDK okAnswers) ()).2 =
        before ++
          [Event.getchar ch,
           Event.printf "Resetting color and releasing control...\n" [],
           Event.CorsairSetLedsColorsBufferByDeviceIndex k 1
             ⟨(tableSDK okAnswers).CLK_A, 0, 0, 0⟩ sb,
           Event.CorsairSetLedsColorsFlushBuffer fl,
           Event.CorsairReleaseControl (tableSDK okAnswers).CAM_ExclusiveLightingControl rl] ∧
      before.any Event.isGetchar = false ∧ before.any Event.isRelease = false ∧
        before.any Event.isBlackWrite = false :=
  have h1 : Event.printf "Resetting color and releasing control...\n" [] ∈
      (run (tableSDK okAnswers) ()).2 := by
    rw [run_okAnswers]; simp
  ⟨h1, C7_reset_after_keypress (tableSDK okAnswers) () h1⟩


/-! ## C8 -/

set_option maxHeartbeats 4000000 in
/-- C8. Every LED call is well formed.  For every run and every
`CorsairGetLedsColorsByDeviceIndex` or `CorsairSetLedsColorsBufferByDeviceIndex`
call in it: the run counted `n` devices and found the keyboard at the one index
`k` whose device info answered as a keyboard, `0 ≤ k < n`; the call is made with
device index `k`, size 1 and a record whose `ledId` is `CLK_A` and whose
channels lie in 0..255: (0,0,0) for a read, (255,0,0) for the first write and
(0,0,0) for the write that follows an earlier write. -/
theorem C8_led_calls_well_formed (sdk : CUESDK σ) (s : σ)
    (before : List Event) (e : Event) (later : List Event)
    (hrun : (run sdk s).2 = before ++ e :: later)
    (deviceIndex size : Int) (c : CorsairLedColor)
    (hled : e.ledArgs = some (deviceIndex, size, c)) :
    ∃ n k,
      Event.CorsairGetDeviceCount n ∈ (run sdk s).2 ∧
      Event.CorsairGetDeviceInfo k (some ⟨sdk.CDT_Keyboard⟩) ∈ (run sdk s).2 ∧
      (∀ j d, Event.CorsairGetDeviceInfo j d ∈ (run sdk s).2 →
        isKeyboard sdk d = true → j = k) ∧
      0 ≤ k ∧ k < n ∧
      (deviceIndex = k ∧ size = 1 ∧ c.ledId = sdk.CLK_A ∧
        (0 ≤ c.r ∧ c.r ≤ 255) ∧ (0 ≤ c.g ∧ c.g ≤ 255) ∧ (0 ≤ c.b ∧ c.b ≤ 255) ∧
        (e.isLedGet = true → c = ⟨sdk.CLK_A, 0, 0, 0⟩) ∧
        (e.isLedSet = true → before.any Event.isLedSet = false →
          c = ⟨sdk.CLK_A, 255, 0, 0⟩) ∧
        (e.isLedSet = true → before.any Event.isLedSet = true →
          c = ⟨sdk.CLK_A, 0, 0, 0⟩)) := by
  have hout := run_outcome sdk s
  revert hled c size deviceIndex hrun later e before
  generalize (run sdk s).1 = status at hout ⊢
  generalize (run sdk s).2 = tr at hout ⊢
  cases hout with
  | handshakeFailed =>
    suffices h : ∀ (before : List Event) (e : Event) (later : List Event),
        _ = before ++ e :: later →
        ∀ (deviceIndex size : Int) (c : CorsairLedColor),
          e.ledArgs = some (deviceIndex, size, c) → False from
      fun b e l h1 d sz c h2 => (h b e l h1 d sz c h2).elim
    rw [forall_splits]
    simp only [splits, List.map_cons, List.map_nil, List.forall_mem_cons]
    simp [Event.ledArgs]
  | requestFailed v hv =>
    suffices h : ∀ (before : List Event) (e : Event) (later : List Event),
        _ = before ++ e :: later →
        ∀ (deviceIndex size : Int) (c : CorsairLedColor),
          e.ledArgs = some (deviceIndex, size, c) → False from
      fun b e l h1 d sz c h2 => (h b e l h1 d sz c h2).elim
    rw [forall_splits]
    simp only [splits, List.map_cons, List.map_nil, List.forall_mem_cons]
    simp [Event.ledArgs]
  | priorityFailed v hv =>
    suffices h : ∀ (before : List Event) (e : Event) (later : List Event),
        _ = before ++ e :: later →
        ∀ (deviceIndex size : Int) (c : CorsairLedColor),
          e.ledArgs = some (deviceIndex, size, c) → False from
      fun b e l h1 d sz c h2 => (h b e l h1 d sz c h2).elim
    rw [forall_splits]
    simp only [splits, List.map_cons, List.map_nil, List.forall_mem_cons]
    simp [Event.ledArgs]
  | noKeyboard v hv n infos hno hlen hprov =>
    suffices h : ∀ (before : List Event) (e : Event) (later : List Event),
        _ = before ++ e :: later →
        ∀ (deviceIndex size : Int) (c : CorsairLedColor),
          e.ledArgs = some (deviceIndex, size, c) → False from
      fun b e l h1 d sz c h2 => (h b e l h1 d sz c h2).elim
    rw [forall_splits]
    simp only [upToSet, upToLoop, readEvents, List.cons_append, List.nil_append,
      List.append_assoc, if_true, if_false, Bool.false_eq_true]
    simp only [splits, splits_append, List.map_cons, List.map_nil, List.map_append,
      List.map_map, List.forall_mem_cons, List.forall_mem_append, List.forall_mem_map,
      forall_splits_queries, Function.comp_apply]
    simp [Event.ledArgs]
  | setFailed v hv n skipped hno hlt hprov ok out err e' =>
    have huniq : ∀ j d, Event.CorsairGetDeviceInfo j d ∈ queries 0
        (skipped ++ [some ⟨sdk.CDT_Keyboard⟩]) → isKeyboard sdk d = true →
        j = skipped.length :=
      fun j d hm hd => keyboard_query_unique sdk skipped hno j d hm hd
    suffices h : ∀ (before : List Event) (e : Event) (later : List Event),
        _ = before ++ e :: later →
        ∀ (deviceIndex size : Int) (c : CorsairLedColor),
          e.ledArgs = some (deviceIndex, size, c) →
          (deviceIndex = skipped.length ∧ size = 1 ∧ c.ledId = sdk.CLK_A ∧
            (0 ≤ c.r ∧ c.r ≤ 255) ∧ (0 ≤ c.g ∧ c.g ≤ 255) ∧ (0 ≤ c.b ∧ c.b ≤ 255) ∧
            (e.isLedGet = true → c = ⟨sdk.CLK_A, 0, 0, 0⟩) ∧
            (e.isLedSet = true → before.any Event.isLedSet = false →
              c = ⟨sdk.CLK_A, 255, 0, 0⟩) ∧
            (e.isLedSet = true → before.any Event.isLedSet = true →
              c = ⟨sdk.CLK_A, 0, 0, 0⟩)) from
      fun b e l h1 d sz c h2 => ⟨n, skipped.length, by simp [upToSet, upToLoop],
        by simp [query_mem_upToSet, keyboard_query_mem],
        fun j d hm hd => huniq j d (by simpa [query_mem_upToSet, query_mem_readEvents] using hm) hd,
        by omega, hlt, h b e l h1 d sz c h2⟩
    rw [forall_splits]
    cases ok <;>
    simp only [upToSet, upToLoop, readEvents, List.cons_append, List.nil_append,
      List.append_assoc, if_true, if_false, Bool.false_eq_true] <;>
    simp only [splits, splits_append, List.map_cons, List.map_nil, List.map_append,
      List.map_map, List.forall_mem_cons, List.forall_mem_append, List.forall_mem_map,
      forall_splits_queries, Function.comp_apply] <;>
    simp only [Event.ledArgs, reduceCtorEq, false_implies, implies_true, and_true, true_and] <;>
    simp [Event.isLedGet, Event.isLedSet, any_queries_isLedSet]
  | flushFailed v hv n skipped hno hlt hprov ok out err e' =>
    have huniq : ∀ j d, Event.CorsairGetDeviceInfo j d ∈ queries 0
        (skipped ++ [some ⟨sdk.CDT_Keyboard⟩]) → isKeyboard sdk d = true →
        j = skipped.length :=
      fun j d hm hd => keyboard_query_unique sdk skipped hno j d hm hd
    suffices h : ∀ (before : List Event) (e : Event) (later : List Event),
        _ = before ++ e :: later →
        ∀ (deviceIndex size : Int) (c : CorsairLedColor),
          e.ledArgs = some (deviceIndex, size, c) →
          (deviceIndex = skipped.length ∧ size = 1 ∧ c.ledId = sdk.CLK_A ∧
            (0 ≤ c.r ∧ c.r ≤ 255) ∧ (0 ≤ c.g ∧ c.g ≤ 255) ∧ (0 ≤ c.b ∧ c.b ≤ 255) ∧
            (e.isLedGet = true → c = ⟨sdk.CLK_A, 0, 0, 0⟩) ∧
            (e.isLedSet = true → before.any Event.isLedSet = false →
              c = ⟨sdk.CLK_A, 255, 0, 0⟩) ∧
            (e.isLedSet = true → before.any Event.isLedSet = true →
              c = ⟨sdk.CLK_A, 0, 0, 0⟩)) from
      fun b e l h1 d sz c h2 => ⟨n, skipped.length, by simp [upToSet, upToLoop],
        by simp [query_mem_upToSet, keyboard_query_mem],
        fun j d hm hd => huniq j d (by simpa [query_mem_upToSet, query_mem_readEvents] using hm) hd,
        by omega, hlt, h b e l h1 d sz c h2⟩
    rw [forall_splits]
    cases ok <;>
    simp only [upToSet, upToLoop, readEvents, List.cons_append, List.nil_append,
      List.append_assoc, if_true, if_false, Bool.false_eq_true] <;>
    simp only [splits, splits_append, List.map_cons, List.map_nil, List.map_append,
      List.map_map, List.forall_mem_cons, List.forall_mem_append, List.forall_mem_map,
      forall_splits_queries, Function.comp_apply] <;>
    simp only [Event.ledArgs, reduceCtorEq, false_implies, implies_true, and_true, true_and] <;>
    simp [Event.isLedGet, Event.isLedSet, any_queries_isLedSet]
  | completed v hv n skipped hno hlt hprov ok out err ok2 out2 err2 ch sb fl rl =>
    have huniq : ∀ j d, Event.CorsairGetDeviceInfo j d ∈ queries 0
        (skipped ++ [some ⟨sdk.CDT_Keyboard⟩]) → isKeyboard sdk d = true →
        j = skipped.length :=
      fun j d hm hd => keyboard_query_unique sdk skipped hno j d hm hd
    suffices h : ∀ (before : List Event) (e : Event) (later : List Event),
        _ = before ++ e :: later →
        ∀ (deviceIndex size : Int) (c : CorsairLedColor),
          e.ledArgs = some (deviceIndex, size, c) →
          (deviceIndex = skipped.length ∧ size = 1 ∧ c.ledId = sdk.CLK_A ∧
            (0 ≤ c.r ∧ c.r ≤ 255) ∧ (0 ≤ c.g ∧ c.g ≤ 255) ∧ (0 ≤ c.b ∧ c.b ≤ 255) ∧
            (e.isLedGet = true → c = ⟨sdk.CLK_A, 0, 0, 0⟩) ∧
            (e.isLedSet = true → before.any Event.isLedSet = false →
              c = ⟨sdk.CLK_A, 255, 0, 0⟩) ∧
            (e.isLedSet = true → before.any Event.isLedSet = true →
              c = ⟨sdk.CLK_A, 0, 0, 0⟩)) from
      fun b e l h1 d sz c h2 => ⟨n, skipped.length, by simp [upToSet, upToLoop],
        by simp [query_mem_upToSet, keyboard_query_mem],
        fun j d hm hd => huniq j d (by simpa [query_mem_upToSet, query_mem_readEvents] using hm) hd,
        by omega, hlt, h b e l h1 d sz c h2⟩
    rw [forall_splits]
    cases ok <;> cases ok2 <;>
    simp only [upToSet, upToLoop, readEvents, List.cons_append, List.nil_append,
      List.append_assoc, if_true, if_false, Bool.false_eq_true] <;>
    simp only [splits, splits_append, List.map_cons, List.map_nil, List.map_append,
      List.map_map, List.forall_mem_cons, List.forall_mem_append, List.forall_mem_map,
      forall_splits_queries, Function.comp_apply] <;>
    simp only [Event.ledArgs, reduceCtorEq, false_implies, implies_true, and_true, true_and] <;>
    simp [Event.isLedGet, Event.isLedSet, any_queries_isLedSet]

/-- C8 at the buffer write of the run against `setFails`. -/
theorem C8_led_calls_well_formed_witness :
    ((run (tableSDK setFails) ()).2 =
        [Event.CorsairPerformProtocolHandshake ⟨4⟩,
         Event.CorsairRequestControl 0 true,
         Event.CorsairSetLayerPriority 128 true,
         Event.CorsairGetDeviceCount 1,
         Event.CorsairGetDeviceInfo 0 (some ⟨2⟩),
         Event.printf "Reading initial color of 'A' key...\n" [],
         Event.CorsairGetLedsColorsByDeviceIndex 0 1 ⟨38, 0, 0, 0⟩ true ⟨38, 10, 20, 30⟩,
         Event.printf "dKey %d color is: R=%d, G=%d, B=%d\n" [38, 10, 20, 30],
         Event.printf "\nSetting the 'A' key to red...\n" []] ++
        Event.CorsairSetLedsColorsBufferByDeviceIndex 0 1 ⟨38, 255, 0, 0⟩ false ::
          [Event.CorsairGetLastError 7, Event.printf "Error setting color: %d\n" [7]]) ∧
    (Event.CorsairSetLedsColorsBufferByDeviceIndex 0 1 ⟨38, 255, 0, 0⟩ false).ledArgs =
      some (0, 1, ⟨38, 255, 0, 0⟩) ∧
    ∃ n k,
      Event.CorsairGetDeviceCount n ∈ (run (tableSDK setFails) ()).2 ∧
      Event.CorsairGetDeviceInfo k (some ⟨(tableSDK setFails).CDT_Keyboard⟩) ∈
        (run (tableSDK setFails) ()).2 ∧
      (∀ j d, Event.CorsairGetDeviceInfo j d ∈ (run (tableSDK setFails) ()).2 →
        isKeyboard (tableSDK setFails) d = true → j = k) ∧
      0 ≤ k ∧ k < n ∧ ((0 : Int) = k ∧ (1 : Int) = 1) :=
  have h1 : (run (tableSDK setFails) ()).2 =
      [Event.CorsairPerformProtocolHandshake ⟨4⟩,
       Event.CorsairRequestControl 0 true,
       Event.CorsairSetLayerPriority 128 true,
       Event.CorsairGetDeviceCount 1,
       Event.CorsairGetDeviceInfo 0 (some ⟨2⟩),
       Event.printf "Reading initial color of 'A' key...\n" [],
       Event.CorsairGetLedsColorsByDeviceIndex 0 1 ⟨38, 0, 0, 0⟩ true ⟨38, 10, 20, 30⟩,
       Event.printf "dKey %d color is: R=%d, G=%d, B=%d\n" [38, 10, 20, 30],
       Event.printf "\nSetting the 'A' key to red...\n" []] ++
      Event.CorsairSetLedsColorsBufferByDeviceIndex 0 1 ⟨38, 255, 0, 0⟩ false ::
        [Event.CorsairGetLastError 7, Event.printf "Error setting color: %d\n" [7]] := by
    rw [run_setFails]; rfl
  ⟨h1, rfl,
    match C8_led_calls_well_formed (tableSDK setFails) () _ _ _ h1 0 1 ⟨38, 255, 0, 0⟩ rfl with
    | ⟨n, k, a1, a2, a3, a4, a5, a6, a7, _⟩ => ⟨n, k, a1, a2, a3, a4, a5, a6, a7⟩⟩

/-! ## C9 -/

/-- C9. The exit status of `main` is decided by exactly five checks.  For every
SDK and every run: the status is 0 or 1; it is 0 exactly when the handshake
answered a nonzero protocol version, `CorsairRequestControl` answered `true`,
`CorsairSetLayerPriority 128` answered `true`, some device info answered as a
keyboard, the buffer write of red answered `true` and the flush made before the
keypress wait answered `true`.  The other results do not enter: a run that got
to the keypress wait exits with status 0 whatever the step-8 calls return, and
after every color read the run goes on to a further step whatever the read
returned.  And each check is really made: the run starts with the handshake;
when it answers a nonzero version the request for control is made; when that
succeeds the layer priority is set; when that succeeds the devices are counted
and either a keyboard answer is obtained or every index below the count is
asked; when a keyboard is found the red buffer write is made; when that
succeeds the flush is made. -/
theorem C9_exit_status (sdk : CUESDK σ) (s : σ) :
    ((run sdk s).1 = 0 ∨ (run sdk s).1 = 1) ∧
    ((run sdk s).1 = 0 ↔
      (∃ v, v ≠ 0 ∧ Event.CorsairPerformProtocolHandshake ⟨v⟩ ∈ (run sdk s).2) ∧
      Event.CorsairRequestControl sdk.CAM_ExclusiveLightingControl true ∈ (run sdk s).2 ∧
      Event.CorsairSetLayerPriority 128 true ∈ (run sdk s).2 ∧
      (∃ k, Event.CorsairGetDeviceInfo k (some ⟨sdk.CDT_Keyboard⟩) ∈ (run sdk s).2) ∧
      (∃ k, Event.CorsairSetLedsColorsBufferByDeviceIndex k 1 ⟨sdk.CLK_A, 255, 0, 0⟩ true ∈
        (run sdk s).2) ∧
      (∃ before later,
        (run sdk s).2 = before ++ Event.CorsairSetLedsColorsFlushBuffer true :: later ∧
        before.any Event.isGetchar = false)) ∧
    (∀ ch, Event.getchar ch ∈ (run sdk s).2 → (run sdk s).1 = 0) ∧
    (∀ before e later, (run sdk s).2 = before ++ e :: later → e.isLedGet = true →
      later.any Event.isStep = true) ∧
    (∃ v rest, (run sdk s).2 = Event.CorsairPerformProtocolHandshake ⟨v⟩ :: rest) ∧
    ((∃ v, v ≠ 0 ∧ Event.CorsairPerformProtocolHandshake ⟨v⟩ ∈ (run sdk s).2) →
      ∃ r, Event.CorsairRequestControl sdk.CAM_ExclusiveLightingControl r ∈ (run sdk s).2) ∧
    (Event.CorsairRequestControl sdk.CAM_ExclusiveLightingControl true ∈ (run sdk s).2 →
      ∃ r, Event.CorsairSetLayerPriority 128 r ∈ (run sdk s).2) ∧
    (Event.CorsairSetLayerPriority 128 true ∈ (run sdk s).2 →
      ∃ n, Event.CorsairGetDeviceCount n ∈ (run sdk s).2 ∧
        ((∃ k, Event.CorsairGetDeviceInfo k (some ⟨sdk.CDT_Keyboard⟩) ∈ (run sdk s).2) ∨
          ∀ j, 0 ≤ j → j < n → ∃ d, Event.CorsairGetDeviceInfo j d ∈ (run sdk s).2)) ∧
    ((∃ k, Event.CorsairGetDeviceInfo k (some ⟨sdk.CDT_Keyboard⟩) ∈ (run sdk s).2) →
      ∃ k r, Event.CorsairSetLedsColorsBufferByDeviceIndex k 1 ⟨sdk.CLK_A, 255, 0, 0⟩ r ∈
        (run sdk s).2) ∧
    ((∃ k, Event.CorsairSetLedsColorsBufferByDeviceIndex k 1 ⟨sdk.CLK_A, 255, 0, 0⟩ true ∈
        (run sdk s).2) →
      ∃ r before later,
        (run sdk s).2 = before ++ Event.CorsairSetLedsColorsFlushBuffer r :: later ∧
        before.any Event.isGetchar = false) :=
  ⟨(run_exit_status sdk s).1, (run_exit_status sdk s).2.1, (run_exit_status sdk s).2.2,
    fun before e later hrun hget => read_followed_by_step sdk s before e later hrun hget,
    run_progress sdk s⟩

/-- C9 at the run against `readFails`: both color reads fail, the five checks
pass, and the exit status is 0. -/
theorem C9_exit_status_witness :
    Event.CorsairGetLedsColorsByDeviceIndex 0 1 ⟨38, 0, 0, 0⟩ false ⟨38, 0, 0, 0⟩ ∈
      (run (tableSDK readFails) ()).2 ∧
    (run (tableSDK readFails) ()).1 = 0 :=
  ⟨by rw [run_readFails]; simp,
    (C9_exit_status (tableSDK readFails) ()).2.1.2 (by
      rw [run_readFails]
      exact ⟨⟨4, by decide, by simp⟩, by simp [tableSDK], by simp,
        ⟨0, by simp [tableSDK]⟩, ⟨0, by simp [tableSDK]⟩,
        [Event.CorsairPerformProtocolHandshake ⟨4⟩,
         Event.CorsairRequestControl 0 true,
         Event.CorsairSetLayerPriority 128 true,
         Event.CorsairGetDeviceCount 1,
         Event.CorsairGetDeviceInfo 0 (some ⟨2⟩),
         Event.printf "Reading initial color of 'A' key...\n" [],
         Event.CorsairGetLedsColorsByDeviceIndex 0 1 ⟨38, 0, 0, 0⟩ false ⟨38, 0, 0, 0⟩,
         Event.CorsairGetLastError 5,
         Event.printf "Error getting key color: %d\n" [5],
         Event.printf "\nSetting the 'A' key to red...\n" [],
         Event.CorsairSetLedsColorsBufferByDeviceIndex 0 1 ⟨38, 255, 0, 0⟩ true],
        _, rfl, rfl⟩)⟩


/-! ## C10 -/

set_option maxHeartbeats 4000000 in
/-- C10. For every run and every `CorsairSetLedsColorsBufferByDeviceIndex` call
in it.  If the call is made before the keypress wait (step 6): when it answers
`false` the program exits with status 1 and never calls
`CorsairSetLedsColorsFlushBuffer`; when it answers `true` the very next call is
the flush.  If the call is made after the keypress wait (step 8), then whatever
it answered the rest of the run is exactly the flush followed by the release of
exclusive control. -/
theorem C10_flush_short_circuit (sdk : CUESDK σ) (s : σ)
    (before : List Event) (e : Event) (later : List Event)
    (hrun : (run sdk s).2 = before ++ e :: later) (hset : e.isLedSet = true) :
    (before.any Event.isGetchar = false →
      (e.failed = true → (run sdk s).1 = 1 ∧ later.any Event.isFlush = false) ∧
      (e.failed = false →
        ∃ fl rest, later = Event.CorsairSetLedsColorsFlushBuffer fl :: rest)) ∧
    (before.any Event.isGetchar = true →
      ∃ fl rl, later = [Event.CorsairSetLedsColorsFlushBuffer fl,
        Event.CorsairReleaseControl sdk.CAM_ExclusiveLightingControl rl]) := by
  have hout := run_outcome sdk s
  revert before e later
  rw [forall_splits]
  generalize (run sdk s).1 = status at hout ⊢
  generalize (run sdk s).2 = tr at hout ⊢
  cases hout with
  | handshakeFailed =>
    simp only [splits, List.map_cons, List.map_nil, List.forall_mem_cons]
    simp only [Event.isLedSet, Bool.false_eq_true, false_implies, implies_true, and_true,
      true_and]
    simp [Event.failed, Event.isFlush, Event.isGetchar, any_queries_isGetchar]
  | requestFailed v hv =>
    simp only [splits, List.map_cons, List.map_nil, List.forall_mem_cons]
    simp only [Event.isLedSet, Bool.false_eq_true, false_implies, implies_true, and_true,
      true_and]
    simp [Event.failed, Event.isFlush, Event.isGetchar, any_queries_isGetchar]
  | priorityFailed v hv =>
    simp only [splits, List.map_cons, List.map_nil, List.forall_mem_cons]
    simp only [Event.isLedSet, Bool.false_eq_true, false_implies, implies_true, and_true,
      true_and]
    simp [Event.failed, Event.isFlush, Event.isGetchar, any_queries_isGetchar]
  | noKeyboard v hv n infos hno hlen hprov =>
    simp only [upToSet, upToLoop, readEvents, List.cons_append, List.nil_append,
      List.append_assoc, if_true, if_false, Bool.false_eq_true]
    simp only [splits, splits_append, List.map_cons, List.map_nil, List.map_append,
      List.map_map, List.forall_mem_cons, List.forall_mem_append, List.forall_mem_map,
      forall_splits_queries, Function.comp_apply]
    simp only [Event.isLedSet, Bool.false_eq_true, false_implies, implies_true, and_true,
      true_and]
    simp [Event.failed, Event.isFlush, Event.isGetchar, any_queries_isGetchar]
  | setFailed v hv n skipped hno hlt hprov ok out err e =>
    cases ok <;>
    simp only [upToSet, upToLoop, readEvents, List.cons_append, List.nil_append,
      List.append_assoc, if_true, if_false, Bool.false_eq_true] <;>
    simp only [splits, splits_append, List.map_cons, List.map_nil, List.map_append,
      List.map_map, List.forall_mem_cons, List.forall_mem_append, List.forall_mem_map,
      forall_splits_queries, Function.comp_apply] <;>
    simp only [Event.isLedSet, Bool.false_eq_true, false_implies, implies_true, and_true,
      true_and] <;>
    simp [Event.failed, Event.isFlush, Event.isGetchar, any_queries_isGetchar]
  | flushFailed v hv n skipped hno hlt hprov ok out err e =>
    cases ok <;>
    simp only [upToSet, upToLoop, readEvents, List.cons_append, List.nil_append,
      List.append_assoc, if_true, if_false, Bool.false_eq_true] <;>
    simp only [splits, splits_append, List.map_cons, List.map_nil, List.map_append,
      List.map_map, List.forall_mem_cons, List.forall_mem_append, List.forall_mem_map,
      forall_splits_queries, Function.comp_apply] <;>
    simp only [Event.isLedSet, Bool.false_eq_true, false_implies, implies_true, and_true,
      true_and] <;>
    simp [Event.failed, Event.isFlush, Event.isGetchar, any_queries_isGetchar]
  | completed v hv n skipped hno hlt hprov ok out err ok2 out2 err2 ch sb fl rl =>
    cases ok <;> cases ok2 <;>
    simp only [upToSet, upToLoop, readEvents, List.cons_append, List.nil_append,
      List.append_assoc, if_true, if_false, Bool.false_eq_true] <;>
    simp only [splits, splits_append, List.map_cons, List.map_nil, List.map_append,
      List.map_map, List.forall_mem_cons, List.forall_mem_append, List.forall_mem_map,
      forall_splits_queries, Function.comp_apply] <;>
    simp only [Event.isLedSet, Bool.false_eq_true, false_implies, implies_true, and_true,
      true_and] <;>
    simp [Event.failed, Event.isFlush, Event.isGetchar, any_queries_isGetchar]

/-- C10 at the failing step-6 buffer write of the run against `setFails`. -/
theorem C10_flush_short_circuit_witness :
    ((run (tableSDK setFails) ()).2 =
        [Event.CorsairPerformProtocolHandshake ⟨4⟩,
         Event.CorsairRequestControl 0 true,
         Event.CorsairSetLayerPriority 128 true,
         Event.CorsairGetDeviceCount 1,
         Event.CorsairGetDeviceInfo 0 (some ⟨2⟩),
         Event.printf "Reading initial color of 'A' key...\n" [],
         Event.CorsairGetLedsColorsByDeviceIndex 0 1 ⟨38, 0, 0, 0⟩ true ⟨38, 10, 20, 30⟩,
         Event.printf "dKey %d color is: R=%d, G=%d, B=%d\n" [38, 10, 20, 30],
         Event.printf "\nSetting the 'A' key to red...\n" []] ++
        Event.CorsairSetLedsColorsBufferByDeviceIndex 0 1 ⟨38, 255, 0, 0⟩ false ::
          [Event.CorsairGetLastError 7, Event.printf "Error setting color: %d\n" [7]]) ∧
    (Event.CorsairSetLedsColorsBufferByDeviceIndex 0 1 ⟨38, 255, 0, 0⟩ false).isLedSet = true ∧
    ((run (tableSDK setFails) ()).1 = 1 ∧
      [Event.CorsairGetLastError 7, Event.printf "Error setting color: %d\n" [7]].any
        Event.isFlush = false) :=
  have h1 : (run (tableSDK setFails) ()).2 =
      [Event.CorsairPerformProtocolHandshake ⟨4⟩,
       Event.CorsairRequestControl 0 true,
       Event.CorsairSetLayerPriority 128 true,
       Event.CorsairGetDeviceCount 1,
       Event.CorsairGetDeviceInfo 0 (some ⟨2⟩),
       Event.printf "Reading initial color of 'A' key...\n" [],
       Event.CorsairGetLedsColorsByDeviceIndex 0 1 ⟨38, 0, 0, 0⟩ true ⟨38, 10, 20, 30⟩,
       Event.printf "dKey %d color is: R=%d, G=%d, B=%d\n" [38, 10, 20, 30],
       Event.printf "\nSetting the 'A' key to red...\n" []] ++
      Event.CorsairSetLedsColorsBufferByDeviceIndex 0 1 ⟨38, 255, 0, 0⟩ false ::
        [Event.CorsairGetLastError 7, Event.printf "Error setting color: %d\n" [7]] := by
    rw [run_setFails]; rfl
  ⟨h1, rfl, ((C10_flush_short_circuit (tableSDK setFails) () _ _ _ h1 rfl).1 rfl).1 rfl⟩

end KeyboardComProj
